import Mathlib

/-!
# Status manager of the NSTemplateSet controller

A shallow embedding of `controllers/nstemplateset/status.go`: the data of an
`NSTemplateSet` that the status manager reads and writes, the library helpers
it calls (condition store, `cmp.Equal` with its transformers, `sort.Slice`,
`errors.Wrapf`), and the status manager's methods as state-passing functions.

Conventions of the embedding:

* a Go `error` is `Option GoError`, `none` standing for `nil`;
* a method with receiver `r *statusManager` and argument `nsTmplSet
  *NSTemplateSet` returns the receiver, the object as the call leaves it in
  memory, and the returned error;
* `r.Client.Status().Update(ctx, nsTmplSet)` appends the object to the log
  `statusWrites` of the receiver and returns what the API server answers;
* a Go slice whose nil-ness `cmp.Equal` can observe (`Usernames`,
  `FeatureToggles`) is an `Option (List _)`, `none` standing for the nil slice;
  the other slices are lists, because the code treats their nil and empty
  values alike;
* a nil-pointer dereference is the result `none` of a function returning
  `Option`.
-/

namespace nstemplateset

/-! ## Errors -/

/-- Go error values as the status manager sees them: an error with a message,
or the result of `errors.Wrapf`, which carries a context message and the error
it wraps. -/
inductive GoError where
  | new (msg : String)
  | withMessage (msg : String) (cause : GoError)
deriving DecidableEq, Repr

/-- The method `Error()`: a plain error prints its message, a wrapped error
prints its context message, then `": "`, then the message of its cause. -/
def GoError.Error : GoError → String
  | .new msg => msg
  | .withMessage msg cause => msg ++ ": " ++ cause.Error

/-- The function `errs.Wrapf(err, format, args...)` of `github.com/pkg/errors`:
nil for a nil `err`, otherwise an error wrapping `err` whose context message is
the formatted string. The argument `formatted` stands for
`fmt.Sprintf(format, args...)`. -/
def Wrapf (err : Option GoError) (formatted : String) : Option GoError :=
  match err with
  | none => none
  | some e => some (.withMessage formatted e)

/-! ## Data model -/

/-- The type `toolchainv1alpha1.Condition`; `Type_` is the Go field `Type`,
times are instants of the clock. -/
structure Condition where
  Type_ : String
  Status : String
  Reason : String
  Message : String
  LastTransitionTime : Nat
  LastUpdatedTime : Option Nat
deriving DecidableEq, Repr

/-- The type `toolchainv1alpha1.NSTemplateSetNamespace`. -/
structure NSTemplateSetNamespace where
  TemplateRef : String
deriving DecidableEq, Repr

/-- The type `toolchainv1alpha1.NSTemplateSetClusterResources`. -/
structure NSTemplateSetClusterResources where
  TemplateRef : String
deriving DecidableEq, Repr

/-- The type `toolchainv1alpha1.NSTemplateSetSpaceRole`; `Usernames` is a Go
slice, `none` being nil. -/
structure NSTemplateSetSpaceRole where
  TemplateRef : String
  Usernames : Option (List String)
deriving DecidableEq, Repr

/-- The type `toolchainv1alpha1.SpaceNamespace`; `Type_` is the Go field
`Type`. -/
structure SpaceNamespace where
  Name : String
  Type_ : String
deriving DecidableEq, Repr

/-- The type `corev1.Namespace`, of which the status manager reads the name
only. -/
structure Namespace where
  Name : String
deriving DecidableEq, Repr

/-- The type `toolchainv1alpha1.NSTemplateSetSpec`; `ClusterResources` is a
pointer, `none` being nil. -/
structure NSTemplateSetSpec where
  Namespaces : List NSTemplateSetNamespace
  ClusterResources : Option NSTemplateSetClusterResources
  SpaceRoles : List NSTemplateSetSpaceRole
deriving DecidableEq, Repr

/-- The type `toolchainv1alpha1.NSTemplateSetStatus`; `ClusterResources` is a
pointer and `FeatureToggles` a slice, `none` being nil. -/
structure NSTemplateSetStatus where
  Conditions : List Condition
  ProvisionedNamespaces : List SpaceNamespace
  Namespaces : List NSTemplateSetNamespace
  ClusterResources : Option NSTemplateSetClusterResources
  SpaceRoles : List NSTemplateSetSpaceRole
  FeatureToggles : Option (List String)
deriving DecidableEq, Repr

/-- The type `toolchainv1alpha1.NSTemplateSet`: the annotations of its
metadata (a map, given by its entries), its spec and its status. -/
structure NSTemplateSet where
  Annotations : List (String × String)
  Spec : NSTemplateSetSpec
  Status : NSTemplateSetStatus
deriving DecidableEq, Repr

/-- The receiver of the methods. Of the embedded `*APIClient` the methods use
`Client.Status().Update` only: `statusUpdateResult` is the answer of the API
server to a status update of a given object (`none` for success) and
`statusWrites` the objects for which a status update was issued, oldest
first. -/
structure statusManager where
  statusUpdateResult : NSTemplateSet → Option GoError
  statusWrites : List NSTemplateSet

/-- What a method returns: the receiver, the object as left in memory and the
Go return value. -/
abbrev Outcome := statusManager × NSTemplateSet × Option GoError

/-- The type `statusUpdater`:
`func(context.Context, *NSTemplateSet, string) error`, over the state it can
change. -/
abbrev statusUpdater := statusManager → NSTemplateSet → String → Outcome

/-- The call `r.Client.Status().Update(ctx, nsTmplSet)`: one status write is
issued for the object, and the API server's answer is returned. -/
def statusManager.StatusUpdate (r : statusManager) (nsTmplSet : NSTemplateSet) : Outcome :=
  ({ r with statusWrites := r.statusWrites ++ [nsTmplSet] }, nsTmplSet, r.statusUpdateResult nsTmplSet)

/-! ## Constants of the API package -/

/-- Modelled from the spec: the constant `toolchainv1alpha1.ConditionReady` is
declared outside the source files; the spec names the condition type
`Ready`. -/
def ConditionReady : String := "Ready"

/-- The constant `corev1.ConditionTrue`. -/
def ConditionTrue : String := "True"

/-- The constant `corev1.ConditionFalse`. -/
def ConditionFalse : String := "False"

/-- Modelled from the spec: the reason constants of the API package are
declared outside the source files; the spec's condition reason vocabulary
gives `Provisioned`. -/
def NSTemplateSetProvisionedReason : String := "Provisioned"

/-- Modelled from the spec: reason `Provisioning` of the vocabulary. -/
def NSTemplateSetProvisioningReason : String := "Provisioning"

/-- Modelled from the spec: reason `Updating` of the vocabulary. -/
def NSTemplateSetUpdatingReason : String := "Updating"

/-- Modelled from the spec: reason `UpdateFailed` of the vocabulary. -/
def NSTemplateSetUpdateFailedReason : String := "UpdateFailed"

/-- Modelled from the spec: reason `UnableToProvision` of the vocabulary. -/
def NSTemplateSetUnableToProvisionReason : String := "UnableToProvision"

/-- Modelled from the spec: reason `UnableToProvisionNamespace` of the
vocabulary. -/
def NSTemplateSetUnableToProvisionNamespaceReason : String := "UnableToProvisionNamespace"

/-- Modelled from the spec: reason `UnableToProvisionClusterResources` of the
vocabulary. -/
def NSTemplateSetUnableToProvisionClusterResourcesReason : String :=
  "UnableToProvisionClusterResources"

/-- Modelled from the spec: reason `UnableToProvisionSpaceRoles` of the
vocabulary. -/
def NSTemplateSetUnableToProvisionSpaceRolesReason : String := "UnableToProvisionSpaceRoles"

/-- Modelled from the spec: reason `Terminating` of the vocabulary. -/
def NSTemplateSetTerminatingReason : String := "Terminating"

/-- Modelled from the spec: reason `TerminatingFailed` of the vocabulary. -/
def NSTemplateSetTerminatingFailedReason : String := "TerminatingFailed"

/-- Modelled from the spec: the constant `toolchainv1alpha1.NamespaceTypeDefault`
is declared outside the source files; the spec gives `type = "default"`. -/
def NamespaceTypeDefault : String := "default"

/-- Modelled from the spec: the constant
`toolchainv1alpha1.FeatureToggleNameAnnotationKey` is declared outside the
source files; the spec calls it `featureToggleKey`. -/
def FeatureToggleNameAnnotationKey : String := "featureToggleKey"

/-! ## Condition store (package `condition` of toolchain-common) -/

/-- Modelled from the spec: `condition.FindConditionByType` is declared
outside the source files. The conditions are keyed by type: the first
condition of the given type is returned with `true`, and the zero `Condition`
with `false` when there is none. -/
def FindConditionByType (conditions : List Condition) (conditionType : String) :
    Condition × Bool :=
  match conditions with
  | [] => ({ Type_ := "", Status := "", Reason := "", Message := "",
             LastTransitionTime := 0, LastUpdatedTime := none }, false)
  | c :: rest => if c.Type_ = conditionType then (c, true) else FindConditionByType rest conditionType

/-- Modelled from the spec: the helper of `condition.AddOrUpdateStatusConditions`
that handles one condition, declared outside the source files. The spec asks
for add-or-update semantics keyed by type that leave the stored conditions
alone when the written condition has the status, reason and message of the
stored one, and that preserve the transition timestamp unless the status
changes. The new condition is stamped with the clock reading `now`; the first
stored condition of its type is replaced, or the condition is appended when
there is none. The flag tells whether the conditions changed. -/
def addOrUpdateStatusCondition (now : Nat) (conditions : List Condition)
    (newCondition : Condition) : List Condition × Bool :=
  match conditions with
  | [] => ([{ newCondition with LastTransitionTime := now }], true)
  | cond :: rest =>
    if cond.Type_ = newCondition.Type_ then
      if cond.Status = newCondition.Status ∧ cond.Reason = newCondition.Reason ∧
          cond.Message = newCondition.Message then
        (cond :: rest, false)
      else if newCondition.Status = cond.Status then
        ({ newCondition with LastTransitionTime := cond.LastTransitionTime } :: rest, true)
      else
        ({ newCondition with LastTransitionTime := now } :: rest, true)
    else
      let res := addOrUpdateStatusCondition now rest newCondition
      (cond :: res.1, res.2)

/-- Modelled from the spec: `condition.AddOrUpdateStatusConditions`, declared
outside the source files: the new conditions are added or updated one after
the other, and the flag tells whether at least one of them changed the
conditions. Every caller in `status.go` passes one condition, so one clock
reading `now` serves the call. -/
def AddOrUpdateStatusConditions (now : Nat) (conditions : List Condition)
    (newConditions : List Condition) : List Condition × Bool :=
  newConditions.foldl
    (fun acc cond =>
      let res := addOrUpdateStatusCondition now acc.1 cond
      (res.1, acc.2 || res.2))
    (conditions, false)

/-! ## Status manager: condition writes -/

/-- The method `updateStatusConditions`: the conditions of the object are
replaced by the result of the condition store, and a status update is issued
only when the store reports a change. -/
def updateStatusConditions (r : statusManager) (now : Nat) (nsTmplSet : NSTemplateSet)
    (newConditions : List Condition) : Outcome :=
  let res := AddOrUpdateStatusConditions now nsTmplSet.Status.Conditions newConditions
  let nsTmplSet1 := { nsTmplSet with Status := { nsTmplSet.Status with Conditions := res.1 } }
  if !res.2 then
    (r, nsTmplSet1, none)
  else
    r.StatusUpdate nsTmplSet1

/-- The method `setStatusUpdateFailed`. -/
def setStatusUpdateFailed (now : Nat) : statusUpdater := fun r nsTmplSet message =>
  updateStatusConditions r now nsTmplSet
    [{ Type_ := ConditionReady, Status := ConditionFalse,
       Reason := NSTemplateSetUpdateFailedReason, Message := message,
       LastTransitionTime := 0, LastUpdatedTime := none }]

/-- The method `setStatusClusterResourcesProvisionFailed`. -/
def setStatusClusterResourcesProvisionFailed (now : Nat) : statusUpdater :=
  fun r nsTmplSet message =>
  updateStatusConditions r now nsTmplSet
    [{ Type_ := ConditionReady, Status := ConditionFalse,
       Reason := NSTemplateSetUnableToProvisionClusterResourcesReason, Message := message,
       LastTransitionTime := 0, LastUpdatedTime := none }]

/-- The method `setStatusSpaceRolesProvisionFailed`. -/
def setStatusSpaceRolesProvisionFailed (now : Nat) : statusUpdater :=
  fun r nsTmplSet message =>
  updateStatusConditions r now nsTmplSet
    [{ Type_ := ConditionReady, Status := ConditionFalse,
       Reason := NSTemplateSetUnableToProvisionSpaceRolesReason, Message := message,
       LastTransitionTime := 0, LastUpdatedTime := none }]

/-- The method `wrapErrorWithStatusUpdate`: nil for a nil error; otherwise the
updater is called with the message of the error, its own error is only logged,
and the error is returned wrapped with the formatted context. The argument
`formatted` stands for the format applied to its arguments. -/
def wrapErrorWithStatusUpdate (r : statusManager) (nsTmplSet : NSTemplateSet)
    (updateStatus : statusUpdater) (err : Option GoError) (formatted : String) : Outcome :=
  match err with
  | none => (r, nsTmplSet, none)
  | some e =>
    let res := updateStatus r nsTmplSet e.Error
    (res.1, res.2.1, Wrapf (some e) formatted)

/-- The method `wrapErrorWithStatusUpdateForClusterResourceFailure`. In Go
`&&` binds tighter than `||`, so the condition reads
`(found && reason == Updating) || reason == UpdateFailed`. -/
def wrapErrorWithStatusUpdateForClusterResourceFailure (r : statusManager) (now : Nat)
    (nsTmplSet : NSTemplateSet) (err : Option GoError) (formatted : String) : Outcome :=
  let res := FindConditionByType nsTmplSet.Status.Conditions ConditionReady
  let readyCondition := res.1
  let found := res.2
  if (found && readyCondition.Reason == NSTemplateSetUpdatingReason) ||
      readyCondition.Reason == NSTemplateSetUpdateFailedReason then
    wrapErrorWithStatusUpdate r nsTmplSet (setStatusUpdateFailed now) err formatted
  else
    wrapErrorWithStatusUpdate r nsTmplSet (setStatusClusterResourcesProvisionFailed now) err
      formatted

/-- The method `wrapErrorWithStatusUpdateForSpaceRolesFailure`, with the same
condition as the method for cluster resources. -/
def wrapErrorWithStatusUpdateForSpaceRolesFailure (r : statusManager) (now : Nat)
    (nsTmplSet : NSTemplateSet) (err : Option GoError) (formatted : String) : Outcome :=
  let res := FindConditionByType nsTmplSet.Status.Conditions ConditionReady
  let readyCondition := res.1
  let found := res.2
  if (found && readyCondition.Reason == NSTemplateSetUpdatingReason) ||
      readyCondition.Reason == NSTemplateSetUpdateFailedReason then
    wrapErrorWithStatusUpdate r nsTmplSet (setStatusUpdateFailed now) err formatted
  else
    wrapErrorWithStatusUpdate r nsTmplSet (setStatusSpaceRolesProvisionFailed now) err formatted

/-- The method `setStatusReady`. -/
def setStatusReady (r : statusManager) (now : Nat) (nsTmplSet : NSTemplateSet) : Outcome :=
  updateStatusConditions r now nsTmplSet
    [{ Type_ := ConditionReady, Status := ConditionTrue,
       Reason := NSTemplateSetProvisionedReason, Message := "",
       LastTransitionTime := 0, LastUpdatedTime := none }]

/-- The method `setStatusProvisioningIfNotUpdating`. -/
def setStatusProvisioningIfNotUpdating (r : statusManager) (now : Nat)
    (nsTmplSet : NSTemplateSet) : Outcome :=
  let res := FindConditionByType nsTmplSet.Status.Conditions ConditionReady
  let readyCondition := res.1
  let found := res.2
  if found && readyCondition.Reason == NSTemplateSetUpdatingReason then
    (r, nsTmplSet, none)
  else
    updateStatusConditions r now nsTmplSet
      [{ Type_ := ConditionReady, Status := ConditionFalse,
         Reason := NSTemplateSetProvisioningReason, Message := "",
         LastTransitionTime := 0, LastUpdatedTime := none }]

/-- The method `setStatusProvisionFailed`. -/
def setStatusProvisionFailed (now : Nat) : statusUpdater := fun r nsTmplSet message =>
  updateStatusConditions r now nsTmplSet
    [{ Type_ := ConditionReady, Status := ConditionFalse,
       Reason := NSTemplateSetUnableToProvisionReason, Message := message,
       LastTransitionTime := 0, LastUpdatedTime := none }]

/-- The method `setStatusNamespaceProvisionFailed`. -/
def setStatusNamespaceProvisionFailed (now : Nat) : statusUpdater := fun r nsTmplSet message =>
  updateStatusConditions r now nsTmplSet
    [{ Type_ := ConditionReady, Status := ConditionFalse,
       Reason := NSTemplateSetUnableToProvisionNamespaceReason, Message := message,
       LastTransitionTime := 0, LastUpdatedTime := none }]

/-- The method `setStatusTerminating`. -/
def setStatusTerminating (r : statusManager) (now : Nat) (nsTmplSet : NSTemplateSet) : Outcome :=
  updateStatusConditions r now nsTmplSet
    [{ Type_ := ConditionReady, Status := ConditionFalse,
       Reason := NSTemplateSetTerminatingReason, Message := "",
       LastTransitionTime := 0, LastUpdatedTime := none }]

/-- The method `setStatusUpdatingIfNotProvisioning`. -/
def setStatusUpdatingIfNotProvisioning (r : statusManager) (now : Nat)
    (nsTmplSet : NSTemplateSet) : Outcome :=
  let res := FindConditionByType nsTmplSet.Status.Conditions ConditionReady
  let readyCondition := res.1
  let found := res.2
  if found && readyCondition.Reason == NSTemplateSetProvisioningReason then
    (r, nsTmplSet, none)
  else
    updateStatusConditions r now nsTmplSet
      [{ Type_ := ConditionReady, Status := ConditionFalse,
         Reason := NSTemplateSetUpdatingReason, Message := "",
         LastTransitionTime := 0, LastUpdatedTime := none }]

/-- The method `setStatusTerminatingFailed`. -/
def setStatusTerminatingFailed (now : Nat) : statusUpdater := fun r nsTmplSet message =>
  updateStatusConditions r now nsTmplSet
    [{ Type_ := ConditionReady, Status := ConditionFalse,
       Reason := NSTemplateSetTerminatingFailedReason, Message := message,
       LastTransitionTime := 0, LastUpdatedTime := none }]

/-! ## Library helpers: sorting, splitting, comparing -/

/-- The operator `<` of Go on strings: the lexicographic order of the bytes,
which on UTF-8 text is the lexicographic order of the characters. -/
def stringLess (a b : String) : Bool :=
  decide (a.data < b.data)

/-- The inner loop of the insertion sort behind `sort.Slice`: the element `x`
stands right after a sorted run, given here last element first, and is swapped
towards the front as long as it is `less` than the element before it. -/
def insertBackward {α : Type} (less : α → α → Bool) (x : α) : List α → List α
  | [] => [x]
  | y :: ys => if less x y then y :: insertBackward less x ys else x :: y :: ys

/-- The function `sort.Slice(data, less)` of the Go standard library, as the
insertion sort it runs on slices of at most twelve elements: the elements are
taken from left to right and each is moved down into the sorted run before
it. On longer slices Go promises a sorted reordering and no more (the order
of elements that compare equal is not fixed). -/
def sortSlice {α : Type} (less : α → α → Bool) (data : List α) : List α :=
  (data.foldl (fun sortedRun x => insertBackward less x sortedRun) []).reverse

/-- The fields of a character sequence cut at every occurrence of `sep`. -/
def splitFields (sep : Char) : List Char → List (List Char)
  | [] => [[]]
  | c :: cs =>
    if c = sep then [] :: splitFields sep cs
    else
      match splitFields sep cs with
      | [] => [[c]]
      | field :: fields => (c :: field) :: fields

/-- The function `strings.Split(s, sep)` for a separator of one character. -/
def Split (s : String) (sep : Char) : List String :=
  (splitFields sep s.data).map String.mk

/-- Modelled from the spec: `utils.SplitCommaSeparatedList` of
toolchain-common is declared outside the source files. The annotation holds
comma-separated feature names: the empty string gives the empty (non-nil)
slice, any other string is split at its commas. -/
def SplitCommaSeparatedList (s : String) : List String :=
  if s.length = 0 then [] else Split s ','

/-- Lookup in a Go map of strings given by its entries: the zero value `""`
for a missing key. -/
def mapLookup (m : List (String × String)) (key : String) : String :=
  match m.lookup key with
  | some v => v
  | none => ""

/-- The call `cmp.Equal(x, y, cmp.Transformer(name, transform))` when the
parameter type of `transform` is the type of `x` and `y`: the transformer is
applied once to each operand and the results are compared structurally
(strings by `==`, structs field by field, slices by nil-ness, length and
elements in order), which is the derived equality of the embedding's types. -/
def cmpEqualTransformed {τ : Type} [DecidableEq τ] (x y : τ) (transform : τ → τ) : Bool :=
  decide (transform x = transform y)

/-- The call `cmp.Equal(x, y, cmp.Transformer(name, transform))` when the
parameter type of `transform` is not the type of `x` and `y` (and of none of
their parts): the type filter of `cmp` never selects the transformer, and the
operands are compared structurally as they are. -/
def cmpEqualUntransformed {τ σ : Type} [DecidableEq τ] (x y : τ) (_transform : σ → σ) : Bool :=
  decide (x = y)

/-! ## Status manager: provisioned namespaces and revisions -/

/-- The method `updateStatusProvisionedNamespaces`. -/
def updateStatusProvisionedNamespaces (r : statusManager) (nsTmplSet : NSTemplateSet)
    (namespaces : List Namespace) : Outcome :=
  if namespaces.length = 0 then
    (r, nsTmplSet, none)
  else
    let provisionedNamespaces : List SpaceNamespace :=
      namespaces.map (fun ns => { Name := ns.Name, Type_ := "" })
    let provisionedNamespaces :=
      sortSlice (fun a b => stringLess a.Name b.Name) provisionedNamespaces
    let provisionedNamespaces :=
      provisionedNamespaces.modifyHead (fun first => { first with Type_ := NamespaceTypeDefault })
    r.StatusUpdate
      { nsTmplSet with
        Status := { nsTmplSet.Status with ProvisionedNamespaces := provisionedNamespaces } }

/-- The transformer of `featureAnnotationNeedsUpdate`: declared on `[]int`,
it returns a sorted copy of its input. -/
def sortIntsTransform (in_ : List Int) : List Int :=
  sortSlice (fun a b => decide (a < b)) in_

/-- The function `featureAnnotationNeedsUpdate`. Both operands of `cmp.Equal`
are `[]string` while the transformer is declared on `[]int`, so the
comparison is the untransformed one; the first operand is never nil. -/
def featureAnnotationNeedsUpdate (nsTmplSet : NSTemplateSet) : Bool × List String :=
  let featureAnnotation := mapLookup nsTmplSet.Annotations FeatureToggleNameAnnotationKey
  let featureAnnotationList := SplitCommaSeparatedList featureAnnotation
  (!cmpEqualUntransformed (some featureAnnotationList) nsTmplSet.Status.FeatureToggles
      sortIntsTransform,
    featureAnnotationList)

/-- The function `clusterResourcesNeedsUpdate`: the three disjuncts are
evaluated from left to right, and the third one dereferences both pointers,
the one of the status first; `none` is the nil-pointer dereference. -/
def clusterResourcesNeedsUpdate (nsTmplSet : NSTemplateSet) : Option Bool :=
  if nsTmplSet.Status.ClusterResources.isNone && nsTmplSet.Spec.ClusterResources.isSome then
    some true
  else if nsTmplSet.Status.ClusterResources.isSome && nsTmplSet.Spec.ClusterResources.isNone then
    some true
  else
    match nsTmplSet.Status.ClusterResources, nsTmplSet.Spec.ClusterResources with
    | some statusResources, some specResources =>
      some (statusResources.TemplateRef != specResources.TemplateRef)
    | _, _ => none

/-- The method `updateStatusClusterResourcesRevisions`: the cluster resources
are looked at only when the feature annotation needs no update (`||` is
short-circuit); `none` is the nil-pointer dereference of
`clusterResourcesNeedsUpdate`. -/
def updateStatusClusterResourcesRevisions (r : statusManager) (nsTmplSet : NSTemplateSet) :
    Option Outcome :=
  let res := featureAnnotationNeedsUpdate nsTmplSet
  let updateFeatureAnnotation := res.1
  let featureAnnotation := res.2
  let commit : Outcome :=
    r.StatusUpdate
      { nsTmplSet with
        Status := { nsTmplSet.Status with
          FeatureToggles := some featureAnnotation
          ClusterResources := nsTmplSet.Spec.ClusterResources } }
  if updateFeatureAnnotation then
    some commit
  else
    match clusterResourcesNeedsUpdate nsTmplSet with
    | none => none
    | some true => some commit
    | some false => some (r, nsTmplSet, none)

/-- The transformer of `updateStatusNamespacesRevisions`: a copy of the input
sorted by `TemplateRef`. -/
def namespacesTransform (in_ : List NSTemplateSetNamespace) : List NSTemplateSetNamespace :=
  sortSlice (fun a b => stringLess a.TemplateRef b.TemplateRef) in_

/-- The method `updateStatusNamespacesRevisions`. -/
def updateStatusNamespacesRevisions (r : statusManager) (nsTmplSet : NSTemplateSet) : Outcome :=
  if !cmpEqualTransformed nsTmplSet.Spec.Namespaces nsTmplSet.Status.Namespaces
      namespacesTransform then
    r.StatusUpdate
      { nsTmplSet with Status := { nsTmplSet.Status with Namespaces := nsTmplSet.Spec.Namespaces } }
  else
    (r, nsTmplSet, none)

/-- The usernames of a role sorted, as `sort.Slice(usernames, ...)` leaves
them; a nil slice stays nil. -/
def sortUsernames (role : NSTemplateSetSpaceRole) : NSTemplateSetSpaceRole :=
  { role with Usernames := role.Usernames.map (sortSlice stringLess) }

/-- The value returned by the transformer of `updateStatusSpaceRolesRevisions`:
a copy of the input sorted by `TemplateRef`, then the usernames of each role
sorted. -/
def spaceRolesTransform (in_ : List NSTemplateSetSpaceRole) : List NSTemplateSetSpaceRole :=
  (sortSlice (fun a b => stringLess a.TemplateRef b.TemplateRef) in_).map sortUsernames

/-- The effect of the transformer of `updateStatusSpaceRolesRevisions` on its
input: the copy is shallow, each `Usernames` slice of the copy shares its
elements with the input's, so sorting it sorts the usernames of the input
role as well; the roles themselves stay where they are. -/
def spaceRolesTransformEffect (in_ : List NSTemplateSetSpaceRole) :
    List NSTemplateSetSpaceRole :=
  in_.map sortUsernames

/-- The method `updateStatusSpaceRolesRevisions`: `cmp.Equal` runs the
transformer on both operands, which sorts the usernames of the roles of the
spec and of the status in place; then the sorted copies are compared. -/
def updateStatusSpaceRolesRevisions (r : statusManager) (nsTmplSet : NSTemplateSet) : Outcome :=
  let equal := cmpEqualTransformed nsTmplSet.Spec.SpaceRoles nsTmplSet.Status.SpaceRoles
    spaceRolesTransform
  let nsTmplSet1 : NSTemplateSet :=
    { nsTmplSet with
      Spec := { nsTmplSet.Spec with
        SpaceRoles := spaceRolesTransformEffect nsTmplSet.Spec.SpaceRoles }
      Status := { nsTmplSet.Status with
        SpaceRoles := spaceRolesTransformEffect nsTmplSet.Status.SpaceRoles } }
  if !equal then
    r.StatusUpdate
      { nsTmplSet1 with Status := { nsTmplSet1.Status with SpaceRoles := nsTmplSet1.Spec.SpaceRoles } }
  else
    (r, nsTmplSet1, none)

/-! ## Predicates used by the theorems -/

/-- The object has a Ready condition (the first of that type), and it carries
the given status, reason and message. -/
def readyIs (nsTmplSet : NSTemplateSet) (status reason message : String) : Prop :=
  (FindConditionByType nsTmplSet.Status.Conditions ConditionReady).2 = true ∧
  (FindConditionByType nsTmplSet.Status.Conditions ConditionReady).1.Status = status ∧
  (FindConditionByType nsTmplSet.Status.Conditions ConditionReady).1.Reason = reason ∧
  (FindConditionByType nsTmplSet.Status.Conditions ConditionReady).1.Message = message

/-- The reason of the Ready condition of the object, `""` when there is
none. -/
def readyReason (nsTmplSet : NSTemplateSet) : String :=
  (FindConditionByType nsTmplSet.Status.Conditions ConditionReady).1.Reason

/-- The object stores a condition of the type of `c` with the status, reason
and message of `c`. -/
def storedSame (nsTmplSet : NSTemplateSet) (c : Condition) : Prop :=
  (FindConditionByType nsTmplSet.Status.Conditions c.Type_).2 = true ∧
  (FindConditionByType nsTmplSet.Status.Conditions c.Type_).1.Status = c.Status ∧
  (FindConditionByType nsTmplSet.Status.Conditions c.Type_).1.Reason = c.Reason ∧
  (FindConditionByType nsTmplSet.Status.Conditions c.Type_).1.Message = c.Message

/-- The usernames of a role as a collection: a nil slice has none. -/
def usernamesOf (role : NSTemplateSetSpaceRole) : List String :=
  role.Usernames.getD []

/-- The usernames `a` are a reordering of the usernames `b`; a nil slice is a
reordering of a nil slice only. -/
def usernamesReordered : Option (List String) → Option (List String) → Prop
  | none, none => True
  | some a, some b => List.Perm a b
  | _, _ => False

/-- The role `a` is the role `b` with its usernames reordered. -/
def roleReordered (a b : NSTemplateSetSpaceRole) : Prop :=
  a.TemplateRef = b.TemplateRef ∧ usernamesReordered a.Usernames b.Usernames

/-- The roles `spec` are obtained from the roles `status` by reordering the
usernames inside each role and reordering the roles. -/
def spaceRolesReordered (spec status : List NSTemplateSetSpaceRole) : Prop :=
  ∃ mid : List NSTemplateSetSpaceRole, List.Forall₂ roleReordered mid status ∧ List.Perm spec mid

/-- The feature annotation of an object, `""` when it has none. -/
def featureAnnotationOf (nsTmplSet : NSTemplateSet) : String :=
  mapLookup nsTmplSet.Annotations FeatureToggleNameAnnotationKey

/-- The feature toggles stored in the status of an object, as a collection: a
nil slice has none. -/
def featureTogglesOf (nsTmplSet : NSTemplateSet) : List String :=
  nsTmplSet.Status.FeatureToggles.getD []

/-- The presence of the cluster resources differs between spec and status, or
both are present with different template references. -/
def clusterResourcesDiffer (nsTmplSet : NSTemplateSet) : Prop :=
  (nsTmplSet.Spec.ClusterResources = none ∧ nsTmplSet.Status.ClusterResources ≠ none) ∨
  (nsTmplSet.Spec.ClusterResources ≠ none ∧ nsTmplSet.Status.ClusterResources = none) ∨
  (∃ specResources statusResources,
    nsTmplSet.Spec.ClusterResources = some specResources ∧
    nsTmplSet.Status.ClusterResources = some statusResources ∧
    specResources.TemplateRef ≠ statusResources.TemplateRef)

/-- The conditions of the object hold at most one condition per type. -/
def atMostOnePerType (nsTmplSet : NSTemplateSet) : Prop :=
  (nsTmplSet.Status.Conditions.map (fun c => c.Type_)).Nodup

/-- The conditions of the object hold exactly one condition of type Ready,
and it carries the given status, reason and message. -/
def exactlyOneReady (nsTmplSet : NSTemplateSet) (status reason message : String) : Prop :=
  (nsTmplSet.Status.Conditions.map (fun c => c.Type_)).count ConditionReady = 1 ∧
  readyIs nsTmplSet status reason message

/-! ## Examples used by the theorems -/

/-- A status manager whose API server accepts every status update and that
has issued no write yet. -/
def freshManager : statusManager :=
  { statusUpdateResult := fun _ => none, statusWrites := [] }

/-- A status manager whose API server rejects every status update. -/
def failingManager : statusManager :=
  { statusUpdateResult := fun _ => some (.new "conflict"), statusWrites := [] }

/-- An object with empty spec, status and annotations. -/
def emptySet : NSTemplateSet :=
  { Annotations := [],
    Spec := { Namespaces := [], ClusterResources := none, SpaceRoles := [] },
    Status := { Conditions := [], ProvisionedNamespaces := [], Namespaces := [],
                ClusterResources := none, SpaceRoles := [], FeatureToggles := none } }

/-- A Ready condition with status `False`, the given reason and message, set
at instant 1. -/
def readyFalse (reason message : String) : Condition :=
  { Type_ := ConditionReady, Status := ConditionFalse, Reason := reason, Message := message,
    LastTransitionTime := 1, LastUpdatedTime := none }

/-- The object `emptySet` with the given conditions. -/
def withConditions (conditions : List Condition) : NSTemplateSet :=
  { emptySet with Status := { emptySet.Status with Conditions := conditions } }

/-- The object `emptySet` with the given namespaces in its spec and in its
status. -/
def withNamespaces (spec status : List NSTemplateSetNamespace) : NSTemplateSet :=
  { emptySet with
    Spec := { emptySet.Spec with Namespaces := spec }
    Status := { emptySet.Status with Namespaces := status } }

/-- The object `emptySet` with the given space roles in its spec and in its
status. -/
def withSpaceRoles (spec status : List NSTemplateSetSpaceRole) : NSTemplateSet :=
  { emptySet with
    Spec := { emptySet.Spec with SpaceRoles := spec }
    Status := { emptySet.Status with SpaceRoles := status } }

/-- Two roles that share the template `admin`, for the users `x` and `y`. -/
def sharedRefStatus : List NSTemplateSetSpaceRole :=
  [{ TemplateRef := "admin", Usernames := some ["x"] },
   { TemplateRef := "admin", Usernames := some ["y"] }]

/-- The roles of `sharedRefStatus` in the other order. -/
def sharedRefSpec : List NSTemplateSetSpaceRole :=
  [{ TemplateRef := "admin", Usernames := some ["y"] },
   { TemplateRef := "admin", Usernames := some ["x"] }]

/-- Roles `admin` and `viewer` of a status. -/
def distinctRefStatus : List NSTemplateSetSpaceRole :=
  [{ TemplateRef := "admin", Usernames := some ["x", "y"] },
   { TemplateRef := "viewer", Usernames := some ["z"] }]

/-- The roles of `distinctRefStatus` in the other order, the usernames of
`admin` in the other order too. -/
def distinctRefSpec : List NSTemplateSetSpaceRole :=
  [{ TemplateRef := "viewer", Usernames := some ["z"] },
   { TemplateRef := "admin", Usernames := some ["y", "x"] }]

/-- The roles of `distinctRefStatus` with the user `w` in place of `y` in the
role `admin`. -/
def changedUsersSpec : List NSTemplateSetSpaceRole :=
  [{ TemplateRef := "viewer", Usernames := some ["z"] },
   { TemplateRef := "admin", Usernames := some ["w", "x"] }]

/-- An object with the cluster resources `x` in its spec and in its status,
the given feature annotation and the given feature toggles in its status. -/
def withToggles (featureNames : String) (toggles : Option (List String)) : NSTemplateSet :=
  { Annotations := [(FeatureToggleNameAnnotationKey, featureNames)],
    Spec := { emptySet.Spec with ClusterResources := some { TemplateRef := "x" } },
    Status := { emptySet.Status with
      ClusterResources := some { TemplateRef := "x" }
      FeatureToggles := toggles } }

/-- An object without feature annotation, with the given cluster resources in
its spec and in its status and the empty, non-nil slice of feature toggles in
its status. -/
def withClusterResources (spec status : Option NSTemplateSetClusterResources) : NSTemplateSet :=
  { emptySet with
    Spec := { emptySet.Spec with ClusterResources := spec }
    Status := { emptySet.Status with ClusterResources := status, FeatureToggles := some [] } }


/-- An object without cluster resources in its spec and in its status, whose
feature annotation `f1` is the list of feature toggles of its status. -/
def withoutClusterResources : NSTemplateSet :=
  { Annotations := [(FeatureToggleNameAnnotationKey, "f1")],
    Spec := emptySet.Spec,
    Status := { emptySet.Status with FeatureToggles := some ["f1"] } }

/-! ## Facts about the condition store -/

theorem find_not_found_reason (conditions : List Condition) (conditionType : String)
    (h : (FindConditionByType conditions conditionType).2 = false) :
    (FindConditionByType conditions conditionType).1.Reason = "" := by
  induction conditions with
  | nil => simp [FindConditionByType]
  | cons c rest ih =>
    unfold FindConditionByType at h ⊢
    by_cases hc : c.Type_ = conditionType
    · simp [hc] at h
    · simp only [hc, if_false] at h ⊢
      exact ih h

theorem find_after_add (now : Nat) (conditions : List Condition) (c : Condition) :
    (FindConditionByType (addOrUpdateStatusCondition now conditions c).1 c.Type_).2 = true ∧
    (FindConditionByType (addOrUpdateStatusCondition now conditions c).1 c.Type_).1.Status
      = c.Status ∧
    (FindConditionByType (addOrUpdateStatusCondition now conditions c).1 c.Type_).1.Reason
      = c.Reason ∧
    (FindConditionByType (addOrUpdateStatusCondition now conditions c).1 c.Type_).1.Message
      = c.Message := by
  induction conditions with
  | nil => simp [addOrUpdateStatusCondition, FindConditionByType]
  | cons cond rest ih =>
    unfold addOrUpdateStatusCondition
    by_cases hT : cond.Type_ = c.Type_
    · by_cases hS : cond.Status = c.Status ∧ cond.Reason = c.Reason ∧ cond.Message = c.Message
      · simp [hT, hS, FindConditionByType]
      · by_cases hN : c.Status = cond.Status
        · rw [if_pos hT, if_neg hS, if_pos hN]
          simp [FindConditionByType, hN]
        · rw [if_pos hT, if_neg hS, if_neg hN]
          simp [FindConditionByType]
    · simp only [hT, if_false]
      unfold FindConditionByType
      simp only [hT, if_false]
      exact ih

theorem add_unchanged (now : Nat) (conditions : List Condition) (c : Condition)
    (hf : (FindConditionByType conditions c.Type_).2 = true)
    (hS : (FindConditionByType conditions c.Type_).1.Status = c.Status)
    (hR : (FindConditionByType conditions c.Type_).1.Reason = c.Reason)
    (hM : (FindConditionByType conditions c.Type_).1.Message = c.Message) :
    addOrUpdateStatusCondition now conditions c = (conditions, false) := by
  induction conditions with
  | nil => simp [FindConditionByType] at hf
  | cons cond rest ih =>
    unfold addOrUpdateStatusCondition
    unfold FindConditionByType at hf hS hR hM
    by_cases hT : cond.Type_ = c.Type_
    · simp only [hT, if_true] at hS hR hM
      simp [hT, hS, hR, hM]
    · simp only [hT, if_false] at hf hS hR hM ⊢
      rw [ih hf hS hR hM]

theorem add_changed (now : Nat) (conditions : List Condition) (c : Condition)
    (h : ¬ ((FindConditionByType conditions c.Type_).2 = true ∧
      (FindConditionByType conditions c.Type_).1.Status = c.Status ∧
      (FindConditionByType conditions c.Type_).1.Reason = c.Reason ∧
      (FindConditionByType conditions c.Type_).1.Message = c.Message)) :
    (addOrUpdateStatusCondition now conditions c).2 = true := by
  induction conditions with
  | nil => simp [addOrUpdateStatusCondition]
  | cons cond rest ih =>
    unfold addOrUpdateStatusCondition
    unfold FindConditionByType at h
    by_cases hT : cond.Type_ = c.Type_
    · simp only [hT, if_true, true_and] at h
      by_cases hN : c.Status = cond.Status
      · rw [if_pos hT, if_neg h, if_pos hN]
      · rw [if_pos hT, if_neg h, if_neg hN]
    · simp only [hT, if_false] at h ⊢
      exact ih h

theorem add_single (now : Nat) (conditions : List Condition) (c : Condition) :
    AddOrUpdateStatusConditions now conditions [c] = addOrUpdateStatusCondition now conditions c := by
  simp [AddOrUpdateStatusConditions]

theorem set_same_conditions (nsTmplSet : NSTemplateSet) :
    ({ nsTmplSet with Status := { nsTmplSet.Status with
        Conditions := nsTmplSet.Status.Conditions } } : NSTemplateSet) = nsTmplSet := rfl

/-- After `updateStatusConditions` with one condition, whatever the API server
answers, the first condition of that type in memory carries the status, reason
and message written. -/
theorem find_after_update (r : statusManager) (now : Nat) (nsTmplSet : NSTemplateSet)
    (c : Condition) :
    (FindConditionByType (updateStatusConditions r now nsTmplSet [c]).2.1.Status.Conditions
      c.Type_).2 = true ∧
    (FindConditionByType (updateStatusConditions r now nsTmplSet [c]).2.1.Status.Conditions
      c.Type_).1.Status = c.Status ∧
    (FindConditionByType (updateStatusConditions r now nsTmplSet [c]).2.1.Status.Conditions
      c.Type_).1.Reason = c.Reason ∧
    (FindConditionByType (updateStatusConditions r now nsTmplSet [c]).2.1.Status.Conditions
      c.Type_).1.Message = c.Message := by
  have h := find_after_add now nsTmplSet.Status.Conditions c
  unfold updateStatusConditions
  rw [add_single]
  by_cases hb : (addOrUpdateStatusCondition now nsTmplSet.Status.Conditions c).2 = true
  · simpa [hb, statusManager.StatusUpdate] using h
  · simpa [hb] using h


theorem wrap_some (r : statusManager) (nsTmplSet : NSTemplateSet) (updateStatus : statusUpdater)
    (e : GoError) (formatted : String) :
    wrapErrorWithStatusUpdate r nsTmplSet updateStatus (some e) formatted =
      ((updateStatus r nsTmplSet e.Error).1, (updateStatus r nsTmplSet e.Error).2.1,
        some (.withMessage formatted e)) := rfl

theorem ready_after_update (r : statusManager) (now : Nat) (nsTmplSet : NSTemplateSet)
    (status reason message : String) (t : Nat) (u : Option Nat) :
    readyIs (updateStatusConditions r now nsTmplSet
      [{ Type_ := ConditionReady, Status := status, Reason := reason, Message := message,
         LastTransitionTime := t, LastUpdatedTime := u }]).2.1 status reason message :=
  find_after_update r now nsTmplSet
    { Type_ := ConditionReady, Status := status, Reason := reason, Message := message,
      LastTransitionTime := t, LastUpdatedTime := u }

/-! ## C1, C2: classification of cluster-resource and space-role failures -/

/-- C1: when the Ready condition of the object has reason Updating or
UpdateFailed and the error is not nil, both
`wrapErrorWithStatusUpdateForClusterResourceFailure` and
`wrapErrorWithStatusUpdateForSpaceRolesFailure` leave the Ready condition with
status False, reason UpdateFailed and the message of the error; the resulting
reason is neither UnableToProvisionClusterResources nor
UnableToProvisionSpaceRoles. -/
theorem C1_failure_while_updating_is_update_failed (r : statusManager) (now : Nat)
    (nsTmplSet : NSTemplateSet) (err : GoError) (formatted : String)
    (hfound : (FindConditionByType nsTmplSet.Status.Conditions ConditionReady).2 = true)
    (hreason : readyReason nsTmplSet = NSTemplateSetUpdatingReason ∨
      readyReason nsTmplSet = NSTemplateSetUpdateFailedReason) :
    (readyIs (wrapErrorWithStatusUpdateForClusterResourceFailure r now nsTmplSet (some err)
        formatted).2.1 ConditionFalse NSTemplateSetUpdateFailedReason err.Error ∧
      readyReason (wrapErrorWithStatusUpdateForClusterResourceFailure r now nsTmplSet (some err)
        formatted).2.1 ≠ NSTemplateSetUnableToProvisionClusterResourcesReason ∧
      readyReason (wrapErrorWithStatusUpdateForClusterResourceFailure r now nsTmplSet (some err)
        formatted).2.1 ≠ NSTemplateSetUnableToProvisionSpaceRolesReason) ∧
    (readyIs (wrapErrorWithStatusUpdateForSpaceRolesFailure r now nsTmplSet (some err)
        formatted).2.1 ConditionFalse NSTemplateSetUpdateFailedReason err.Error ∧
      readyReason (wrapErrorWithStatusUpdateForSpaceRolesFailure r now nsTmplSet (some err)
        formatted).2.1 ≠ NSTemplateSetUnableToProvisionClusterResourcesReason ∧
      readyReason (wrapErrorWithStatusUpdateForSpaceRolesFailure r now nsTmplSet (some err)
        formatted).2.1 ≠ NSTemplateSetUnableToProvisionSpaceRolesReason) := by
  have hcond : ((FindConditionByType nsTmplSet.Status.Conditions ConditionReady).2 &&
      (FindConditionByType nsTmplSet.Status.Conditions ConditionReady).1.Reason ==
        NSTemplateSetUpdatingReason ||
      (FindConditionByType nsTmplSet.Status.Conditions ConditionReady).1.Reason ==
        NSTemplateSetUpdateFailedReason) = true := by
    unfold readyReason at hreason
    rcases hreason with h | h
    · simp [hfound, h]
    · simp [h]
  have hready := ready_after_update r now nsTmplSet ConditionFalse
    NSTemplateSetUpdateFailedReason err.Error 0 none
  have hne1 : NSTemplateSetUpdateFailedReason ≠
      NSTemplateSetUnableToProvisionClusterResourcesReason := by decide
  have hne2 : NSTemplateSetUpdateFailedReason ≠
      NSTemplateSetUnableToProvisionSpaceRolesReason := by decide
  have hCR : (wrapErrorWithStatusUpdateForClusterResourceFailure r now nsTmplSet (some err)
      formatted).2.1 = (setStatusUpdateFailed now r nsTmplSet err.Error).2.1 := by
    unfold wrapErrorWithStatusUpdateForClusterResourceFailure
    simp only [hcond, if_true, wrap_some]
  have hSR : (wrapErrorWithStatusUpdateForSpaceRolesFailure r now nsTmplSet (some err)
      formatted).2.1 = (setStatusUpdateFailed now r nsTmplSet err.Error).2.1 := by
    unfold wrapErrorWithStatusUpdateForSpaceRolesFailure
    simp only [hcond, if_true, wrap_some]
  rw [hCR, hSR]
  have hr : readyReason (setStatusUpdateFailed now r nsTmplSet err.Error).2.1 =
      NSTemplateSetUpdateFailedReason := hready.2.2.1
  exact ⟨⟨hready, by rw [hr]; exact hne1, by rw [hr]; exact hne2⟩,
    ⟨hready, by rw [hr]; exact hne1, by rw [hr]; exact hne2⟩⟩

/-- Witness of C1: the object whose Ready condition has reason Updating. -/
theorem C1_witness :
    (FindConditionByType
      (withConditions [readyFalse NSTemplateSetUpdatingReason ""]).Status.Conditions
      ConditionReady).2 = true ∧
    readyIs (wrapErrorWithStatusUpdateForClusterResourceFailure failingManager 5
        (withConditions [readyFalse NSTemplateSetUpdatingReason ""]) (some (.new "boom"))
        "ctx").2.1 ConditionFalse NSTemplateSetUpdateFailedReason "boom" ∧
    readyIs (wrapErrorWithStatusUpdateForSpaceRolesFailure failingManager 5
        (withConditions [readyFalse NSTemplateSetUpdatingReason ""]) (some (.new "boom"))
        "ctx").2.1 ConditionFalse NSTemplateSetUpdateFailedReason "boom" :=
  ⟨by decide,
    (C1_failure_while_updating_is_update_failed failingManager 5
      (withConditions [readyFalse NSTemplateSetUpdatingReason ""]) (.new "boom") "ctx"
      (by decide) (Or.inl (by decide))).1.1,
    (C1_failure_while_updating_is_update_failed failingManager 5
      (withConditions [readyFalse NSTemplateSetUpdatingReason ""]) (.new "boom") "ctx"
      (by decide) (Or.inl (by decide))).2.1⟩

/-- C2: when the object has no Ready condition, or its Ready reason is neither
Updating nor UpdateFailed, and the error is not nil,
`wrapErrorWithStatusUpdateForClusterResourceFailure` leaves the Ready
condition with status False, reason UnableToProvisionClusterResources and the
message of the error, and `wrapErrorWithStatusUpdateForSpaceRolesFailure`
leaves it with status False, reason UnableToProvisionSpaceRoles and the
message of the error. -/
theorem C2_failure_outside_update_names_subsystem (r : statusManager) (now : Nat)
    (nsTmplSet : NSTemplateSet) (err : GoError) (formatted : String)
    (h : (FindConditionByType nsTmplSet.Status.Conditions ConditionReady).2 = false ∨
      (readyReason nsTmplSet ≠ NSTemplateSetUpdatingReason ∧
        readyReason nsTmplSet ≠ NSTemplateSetUpdateFailedReason)) :
    readyIs (wrapErrorWithStatusUpdateForClusterResourceFailure r now nsTmplSet (some err)
        formatted).2.1 ConditionFalse NSTemplateSetUnableToProvisionClusterResourcesReason
        err.Error ∧
    readyIs (wrapErrorWithStatusUpdateForSpaceRolesFailure r now nsTmplSet (some err)
        formatted).2.1 ConditionFalse NSTemplateSetUnableToProvisionSpaceRolesReason
        err.Error := by
  have hcond : ((FindConditionByType nsTmplSet.Status.Conditions ConditionReady).2 &&
      (FindConditionByType nsTmplSet.Status.Conditions ConditionReady).1.Reason ==
        NSTemplateSetUpdatingReason ||
      (FindConditionByType nsTmplSet.Status.Conditions ConditionReady).1.Reason ==
        NSTemplateSetUpdateFailedReason) = false := by
    unfold readyReason at h
    rcases h with h | ⟨h1, h2⟩
    · have hz := find_not_found_reason _ _ h
      rw [h, hz]
      decide
    · simp [h1, h2]
  constructor
  · unfold wrapErrorWithStatusUpdateForClusterResourceFailure
    simp only [hcond, wrap_some]
    exact ready_after_update r now nsTmplSet ConditionFalse
      NSTemplateSetUnableToProvisionClusterResourcesReason err.Error 0 none
  · unfold wrapErrorWithStatusUpdateForSpaceRolesFailure
    simp only [hcond, wrap_some]
    exact ready_after_update r now nsTmplSet ConditionFalse
      NSTemplateSetUnableToProvisionSpaceRolesReason err.Error 0 none

/-- Witness of C2: the object whose Ready condition has reason
Provisioning. -/
theorem C2_witness :
    (readyReason (withConditions [readyFalse NSTemplateSetProvisioningReason ""]) ≠
        NSTemplateSetUpdatingReason ∧
      readyReason (withConditions [readyFalse NSTemplateSetProvisioningReason ""]) ≠
        NSTemplateSetUpdateFailedReason) ∧
    readyIs (wrapErrorWithStatusUpdateForClusterResourceFailure freshManager 5
        (withConditions [readyFalse NSTemplateSetProvisioningReason ""]) (some (.new "boom"))
        "ctx").2.1 ConditionFalse NSTemplateSetUnableToProvisionClusterResourcesReason
        "boom" ∧
    readyIs (wrapErrorWithStatusUpdateForSpaceRolesFailure freshManager 5
        (withConditions [readyFalse NSTemplateSetProvisioningReason ""]) (some (.new "boom"))
        "ctx").2.1 ConditionFalse NSTemplateSetUnableToProvisionSpaceRolesReason "boom" :=
  ⟨by decide,
    C2_failure_outside_update_names_subsystem freshManager 5
      (withConditions [readyFalse NSTemplateSetProvisioningReason ""]) (.new "boom") "ctx"
      (Or.inr (by decide))⟩

/-! ## C3: the original error is returned -/

/-- C3: `wrapErrorWithStatusUpdate` returns nil exactly when the given error
is nil. For an error `e` that is not nil, the receiver and the object are left
as one call of the status updater with the message of `e` leaves them, and the
returned error wraps `e`, with message the formatted context, then `": "`,
then the message of `e`, whatever the updater returns. For a nil error the
receiver and the object are unchanged. -/
theorem C3_wrap_returns_original_error (r : statusManager) (nsTmplSet : NSTemplateSet)
    (updateStatus : statusUpdater) (err : Option GoError) (formatted : String) :
    ((wrapErrorWithStatusUpdate r nsTmplSet updateStatus err formatted).2.2 = none ↔
      err = none) ∧
    (∀ e : GoError, err = some e →
      (wrapErrorWithStatusUpdate r nsTmplSet updateStatus err formatted).1 =
        (updateStatus r nsTmplSet e.Error).1 ∧
      (wrapErrorWithStatusUpdate r nsTmplSet updateStatus err formatted).2.1 =
        (updateStatus r nsTmplSet e.Error).2.1 ∧
      (wrapErrorWithStatusUpdate r nsTmplSet updateStatus err formatted).2.2 =
        some (.withMessage formatted e) ∧
      (GoError.withMessage formatted e).Error = formatted ++ ": " ++ e.Error) ∧
    (err = none →
      (wrapErrorWithStatusUpdate r nsTmplSet updateStatus err formatted).1 = r ∧
      (wrapErrorWithStatusUpdate r nsTmplSet updateStatus err formatted).2.1 = nsTmplSet) := by
  cases err with
  | none =>
    refine ⟨by simp [wrapErrorWithStatusUpdate], ?_, ?_⟩
    · intro e he
      cases he
    · intro _
      exact ⟨rfl, rfl⟩
  | some e0 =>
    refine ⟨by simp [wrapErrorWithStatusUpdate, Wrapf], ?_, ?_⟩
    · intro e he
      cases he
      exact ⟨rfl, rfl, rfl, rfl⟩
    · intro h
      cases h

/-- Witness of C3: the API server rejects the status update, and the error
returned is still the wrapped original error; one status write was issued. -/
theorem C3_witness :
    (wrapErrorWithStatusUpdate failingManager emptySet (setStatusUpdateFailed 5)
      (some (.new "boom")) "ctx").2.2 = some (.withMessage "ctx" (.new "boom")) ∧
    (GoError.withMessage "ctx" (.new "boom")).Error = "ctx" ++ ": " ++ (GoError.new "boom").Error ∧
    (setStatusUpdateFailed 5 failingManager emptySet "boom").2.2 = some (.new "conflict") ∧
    (setStatusUpdateFailed 5 failingManager emptySet "boom").1.statusWrites.length = 1 ∧
    (wrapErrorWithStatusUpdate failingManager emptySet (setStatusUpdateFailed 5)
      (some (.new "boom")) "ctx").1 =
        (setStatusUpdateFailed 5 failingManager emptySet (GoError.new "boom").Error).1 :=
  ⟨((C3_wrap_returns_original_error failingManager emptySet (setStatusUpdateFailed 5)
      (some (.new "boom")) "ctx").2.1 (.new "boom") rfl).2.2.1,
    ((C3_wrap_returns_original_error failingManager emptySet (setStatusUpdateFailed 5)
      (some (.new "boom")) "ctx").2.1 (.new "boom") rfl).2.2.2,
    by decide, by decide,
    ((C3_wrap_returns_original_error failingManager emptySet (setStatusUpdateFailed 5)
      (some (.new "boom")) "ctx").2.1 (.new "boom") rfl).1⟩

/-! ## C4: condition writes are idempotent -/

theorem update_noop (r : statusManager) (now : Nat) (nsTmplSet : NSTemplateSet) (c : Condition)
    (h : storedSame nsTmplSet c) :
    updateStatusConditions r now nsTmplSet [c] = (r, nsTmplSet, none) := by
  unfold updateStatusConditions
  rw [add_single, add_unchanged now nsTmplSet.Status.Conditions c h.1 h.2.1 h.2.2.1 h.2.2.2]
  rfl

theorem update_writes (r : statusManager) (now : Nat) (nsTmplSet : NSTemplateSet) (c : Condition)
    (h : ¬ storedSame nsTmplSet c) :
    updateStatusConditions r now nsTmplSet [c] =
      r.StatusUpdate { nsTmplSet with Status := { nsTmplSet.Status with
        Conditions := (addOrUpdateStatusCondition now nsTmplSet.Status.Conditions c).1 } } := by
  unfold updateStatusConditions
  rw [add_single]
  simp [add_changed now nsTmplSet.Status.Conditions c h]

theorem stored_after_update (r : statusManager) (now : Nat) (nsTmplSet : NSTemplateSet)
    (c : Condition) : storedSame (updateStatusConditions r now nsTmplSet [c]).2.1 c :=
  find_after_update r now nsTmplSet c

/-- C4: for a condition `c` that the object does not store with the same
status, reason and message (a different one of its type is stored, or none),
the first call of `updateStatusConditions` with `c` issues exactly one status
write; a second call with `c`, at any later instant, issues none, returns nil
and leaves the object, its conditions and their transition times as the first
call left them. When the object already stores `c` with the same status,
reason and message, a call issues no write, returns nil and leaves the object
unchanged. -/
theorem C4_condition_write_idempotent (r : statusManager) (now1 now2 : Nat)
    (nsTmplSet : NSTemplateSet) (c : Condition) :
    (¬ storedSame nsTmplSet c →
      (updateStatusConditions r now1 nsTmplSet [c]).1.statusWrites =
        r.statusWrites ++ [(updateStatusConditions r now1 nsTmplSet [c]).2.1]) ∧
    (updateStatusConditions (updateStatusConditions r now1 nsTmplSet [c]).1 now2
        (updateStatusConditions r now1 nsTmplSet [c]).2.1 [c] =
      ((updateStatusConditions r now1 nsTmplSet [c]).1,
        (updateStatusConditions r now1 nsTmplSet [c]).2.1, none)) ∧
    (storedSame nsTmplSet c →
      updateStatusConditions r now1 nsTmplSet [c] = (r, nsTmplSet, none)) := by
  refine ⟨?_, ?_, ?_⟩
  · intro h
    rw [update_writes r now1 nsTmplSet c h]
    rfl
  · exact update_noop _ now2 _ c (stored_after_update r now1 nsTmplSet c)
  · intro h
    exact update_noop r now1 nsTmplSet c h

/-- Witness of C4: writing `UpdateFailed` over a stored `Updating` condition
(one write, then none), and writing the stored condition again (no write). -/
theorem C4_witness :
    (¬ storedSame (withConditions [readyFalse NSTemplateSetUpdatingReason ""])
        (readyFalse NSTemplateSetUpdateFailedReason "boom")) ∧
    (updateStatusConditions freshManager 7
        (withConditions [readyFalse NSTemplateSetUpdatingReason ""])
        [readyFalse NSTemplateSetUpdateFailedReason "boom"]).1.statusWrites =
      freshManager.statusWrites ++ [(updateStatusConditions freshManager 7
        (withConditions [readyFalse NSTemplateSetUpdatingReason ""])
        [readyFalse NSTemplateSetUpdateFailedReason "boom"]).2.1] ∧
    storedSame (withConditions [readyFalse NSTemplateSetUpdatingReason ""])
        (readyFalse NSTemplateSetUpdatingReason "") ∧
    updateStatusConditions freshManager 7
        (withConditions [readyFalse NSTemplateSetUpdatingReason ""])
        [readyFalse NSTemplateSetUpdatingReason ""] =
      (freshManager, withConditions [readyFalse NSTemplateSetUpdatingReason ""], none) :=
  ⟨by unfold storedSame; decide,
    (C4_condition_write_idempotent freshManager 7 9
      (withConditions [readyFalse NSTemplateSetUpdatingReason ""])
      (readyFalse NSTemplateSetUpdateFailedReason "boom")).1 (by unfold storedSame; decide),
    by unfold storedSame; decide,
    (C4_condition_write_idempotent freshManager 7 9
      (withConditions [readyFalse NSTemplateSetUpdatingReason ""])
      (readyFalse NSTemplateSetUpdatingReason "")).2.2 (by unfold storedSame; decide)⟩

/-! ## Facts about `sort.Slice` -/

theorem stringLess_iff (a b : String) : stringLess a b = true ↔ a < b := by
  unfold stringLess
  rw [decide_eq_true_iff]
  exact String.lt_iff_toList_lt.symm

theorem insertBackward_perm {α : Type} (less : α → α → Bool) (x : α) (l : List α) :
    List.Perm (insertBackward less x l) (x :: l) := by
  induction l with
  | nil => exact List.Perm.refl _
  | cons y ys ih =>
    unfold insertBackward
    by_cases h : less x y = true
    · rw [if_pos h]
      exact ((List.Perm.cons y ih).trans (List.Perm.swap x y ys))
    · rw [if_neg h]

theorem foldl_insertBackward_perm {α : Type} (less : α → α → Bool) (l : List α) :
    ∀ run : List α,
      List.Perm (l.foldl (fun sortedRun x => insertBackward less x sortedRun) run) (run ++ l) := by
  induction l with
  | nil => intro run; simp
  | cons a l ih =>
    intro run
    simp only [List.foldl_cons]
    refine (ih (insertBackward less a run)).trans ?_
    refine ((insertBackward_perm less a run).append_right l).trans ?_
    have hmid : List.Perm (run ++ a :: l) (a :: (run ++ l)) := List.perm_middle
    simpa using hmid.symm

theorem sortSlice_perm {α : Type} (less : α → α → Bool) (l : List α) :
    List.Perm (sortSlice less l) l := by
  unfold sortSlice
  refine (List.reverse_perm _).trans ?_
  simpa using foldl_insertBackward_perm less l []

theorem insertBackward_sorted {α : Type} (less : α → α → Bool) (key : α → String)
    (hless : ∀ a b, less a b = true ↔ key a < key b) (x : α) (l : List α)
    (hl : l.Pairwise (fun a b => key b ≤ key a)) :
    (insertBackward less x l).Pairwise (fun a b => key b ≤ key a) := by
  induction l with
  | nil => simp [insertBackward]
  | cons y ys ih =>
    unfold insertBackward
    rw [List.pairwise_cons] at hl
    by_cases h : less x y = true
    · rw [if_pos h, List.pairwise_cons]
      refine ⟨?_, ih hl.2⟩
      intro z hz
      rcases (List.mem_cons.mp ((insertBackward_perm less x ys).mem_iff.mp hz)) with hzx | hzy
      · rw [hzx]
        exact le_of_lt ((hless x y).mp h)
      · exact hl.1 z hzy
    · rw [if_neg h, List.pairwise_cons]
      have hyx : key y ≤ key x := not_lt.mp (fun hlt => h ((hless x y).mpr hlt))
      refine ⟨?_, List.pairwise_cons.mpr hl⟩
      intro z hz
      rcases List.mem_cons.mp hz with hzy | hzs
      · rw [hzy]
        exact hyx
      · exact le_trans (hl.1 z hzs) hyx

theorem foldl_insertBackward_sorted {α : Type} (less : α → α → Bool) (key : α → String)
    (hless : ∀ a b, less a b = true ↔ key a < key b) (l : List α) :
    ∀ run : List α, run.Pairwise (fun a b => key b ≤ key a) →
      (l.foldl (fun sortedRun x => insertBackward less x sortedRun) run).Pairwise
        (fun a b => key b ≤ key a) := by
  induction l with
  | nil => intro run h; simpa using h
  | cons a l ih =>
    intro run h
    simp only [List.foldl_cons]
    exact ih _ (insertBackward_sorted less key hless a run h)

theorem sortSlice_sorted {α : Type} (less : α → α → Bool) (key : α → String)
    (hless : ∀ a b, less a b = true ↔ key a < key b) (l : List α) :
    (sortSlice less l).Pairwise (fun a b => key a ≤ key b) := by
  unfold sortSlice
  rw [List.pairwise_reverse]
  exact foldl_insertBackward_sorted less key hless l [] List.Pairwise.nil

/-- Two reorderings of each other that are both strictly ascending in a key
are the same list. -/
theorem eq_of_perm_of_strictly_sorted {α : Type} (key : α → String) {l₁ l₂ : List α}
    (hp : List.Perm l₁ l₂) (h₁ : l₁.Pairwise (fun a b => key a < key b))
    (h₂ : l₂.Pairwise (fun a b => key a < key b)) : l₁ = l₂ := by
  haveI : IsAntisymm α (fun a b => key a < key b) :=
    ⟨fun a b hab hba => absurd hab (lt_asymm hba)⟩
  exact List.eq_of_perm_of_sorted hp h₁ h₂

/-- Two reorderings of each other that are both ascending in an injective key
are the same list. -/
theorem eq_of_perm_of_sorted_injective {α : Type} (key : α → String)
    (hinj : ∀ a b, key a = key b → a = b) {l₁ l₂ : List α}
    (hp : List.Perm l₁ l₂) (h₁ : l₁.Pairwise (fun a b => key a ≤ key b))
    (h₂ : l₂.Pairwise (fun a b => key a ≤ key b)) : l₁ = l₂ := by
  haveI : IsAntisymm α (fun a b => key a ≤ key b) :=
    ⟨fun a b hab hba => hinj a b (le_antisymm hab hba)⟩
  exact List.eq_of_perm_of_sorted hp h₁ h₂

theorem sortSlice_strings_eq_iff (a b : List String) :
    sortSlice stringLess a = sortSlice stringLess b ↔ List.Perm a b := by
  constructor
  · intro h
    have hb := sortSlice_perm stringLess b
    rw [← h] at hb
    exact (sortSlice_perm stringLess a).symm.trans hb
  · intro h
    exact eq_of_perm_of_sorted_injective id (fun _ _ h => h)
      (((sortSlice_perm stringLess a).trans h).trans (sortSlice_perm stringLess b).symm)
      (sortSlice_sorted stringLess id stringLess_iff a)
      (sortSlice_sorted stringLess id stringLess_iff b)

/-! ## C5: namespaces revisions -/

theorem namespacesTransform_eq_iff (a b : List NSTemplateSetNamespace) :
    namespacesTransform a = namespacesTransform b ↔ List.Perm a b := by
  unfold namespacesTransform
  constructor
  · intro h
    have hb := sortSlice_perm (fun x y => stringLess x.TemplateRef y.TemplateRef) b
    rw [← h] at hb
    exact (sortSlice_perm _ a).symm.trans hb
  · intro h
    refine eq_of_perm_of_sorted_injective (fun n => n.TemplateRef) ?_
      (((sortSlice_perm _ a).trans h).trans (sortSlice_perm _ b).symm)
      (sortSlice_sorted _ (fun n => n.TemplateRef) (fun x y => stringLess_iff _ _) a)
      (sortSlice_sorted _ (fun n => n.TemplateRef) (fun x y => stringLess_iff _ _) b)
    intro x y hxy
    cases x
    cases y
    simpa using hxy

/-- C5: `updateStatusNamespacesRevisions` issues a status write exactly when
`spec.namespaces` is not a reordering of `status.namespaces`. When it is a
reordering, no write is issued, nil is returned and the object is unchanged;
otherwise `status.namespaces` is set to `spec.namespaces`, nothing else
changes, and exactly one status write, of that object, is issued. -/
theorem C5_namespaces_write_iff_not_reordering (r : statusManager) (nsTmplSet : NSTemplateSet) :
    (List.Perm nsTmplSet.Spec.Namespaces nsTmplSet.Status.Namespaces →
      updateStatusNamespacesRevisions r nsTmplSet = (r, nsTmplSet, none)) ∧
    (¬ List.Perm nsTmplSet.Spec.Namespaces nsTmplSet.Status.Namespaces →
      (updateStatusNamespacesRevisions r nsTmplSet).2.1 =
        { nsTmplSet with
          Status := { nsTmplSet.Status with Namespaces := nsTmplSet.Spec.Namespaces } } ∧
      (updateStatusNamespacesRevisions r nsTmplSet).1.statusWrites =
        r.statusWrites ++ [(updateStatusNamespacesRevisions r nsTmplSet).2.1]) ∧
    ((updateStatusNamespacesRevisions r nsTmplSet).1.statusWrites ≠ r.statusWrites ↔
      ¬ List.Perm nsTmplSet.Spec.Namespaces nsTmplSet.Status.Namespaces) := by
  have hiff := namespacesTransform_eq_iff nsTmplSet.Spec.Namespaces nsTmplSet.Status.Namespaces
  by_cases hp : List.Perm nsTmplSet.Spec.Namespaces nsTmplSet.Status.Namespaces
  · have heq : updateStatusNamespacesRevisions r nsTmplSet = (r, nsTmplSet, none) := by
      unfold updateStatusNamespacesRevisions cmpEqualTransformed
      simp [hiff.mpr hp]
    refine ⟨fun _ => heq, fun h => absurd hp h, ?_⟩
    rw [heq]
    simp [hp]
  · have hne : ¬ namespacesTransform nsTmplSet.Spec.Namespaces =
        namespacesTransform nsTmplSet.Status.Namespaces := fun h => hp (hiff.mp h)
    have heq : updateStatusNamespacesRevisions r nsTmplSet =
        r.StatusUpdate { nsTmplSet with
          Status := { nsTmplSet.Status with Namespaces := nsTmplSet.Spec.Namespaces } } := by
      unfold updateStatusNamespacesRevisions cmpEqualTransformed
      simp [hne]
    refine ⟨fun h => absurd h hp, fun _ => ?_, ?_⟩
    · rw [heq]
      exact ⟨rfl, rfl⟩
    · rw [heq]
      simp [hp, statusManager.StatusUpdate]

/-- Witness of C5: namespaces in another order (no write) and one namespace
changed (one write). -/
theorem C5_witness :
    updateStatusNamespacesRevisions freshManager
        (withNamespaces [⟨"dev"⟩, ⟨"stage"⟩] [⟨"stage"⟩, ⟨"dev"⟩]) =
      (freshManager, withNamespaces [⟨"dev"⟩, ⟨"stage"⟩] [⟨"stage"⟩, ⟨"dev"⟩], none) ∧
    (updateStatusNamespacesRevisions freshManager
        (withNamespaces [⟨"dev"⟩, ⟨"stage2"⟩] [⟨"stage"⟩, ⟨"dev"⟩])).2.1 =
      withNamespaces [⟨"dev"⟩, ⟨"stage2"⟩] [⟨"dev"⟩, ⟨"stage2"⟩] ∧
    (updateStatusNamespacesRevisions freshManager
        (withNamespaces [⟨"dev"⟩, ⟨"stage2"⟩] [⟨"stage"⟩, ⟨"dev"⟩])).1.statusWrites =
      freshManager.statusWrites ++ [(updateStatusNamespacesRevisions freshManager
        (withNamespaces [⟨"dev"⟩, ⟨"stage2"⟩] [⟨"stage"⟩, ⟨"dev"⟩])).2.1] :=
  ⟨(C5_namespaces_write_iff_not_reordering freshManager
      (withNamespaces [⟨"dev"⟩, ⟨"stage"⟩] [⟨"stage"⟩, ⟨"dev"⟩])).1
      (List.Perm.swap _ _ _),
    (C5_namespaces_write_iff_not_reordering freshManager
      (withNamespaces [⟨"dev"⟩, ⟨"stage2"⟩] [⟨"stage"⟩, ⟨"dev"⟩])).2.1
      (fun h => absurd (h.mem_iff.mp (List.mem_cons_of_mem _ (List.mem_singleton.mpr rfl)))
        (by decide))⟩

/-! ## C6, C7: space roles revisions -/

theorem sortUsernames_eq_of_reordered (a b : NSTemplateSetSpaceRole) (h : roleReordered a b) :
    sortUsernames a = sortUsernames b := by
  obtain ⟨ra, ua⟩ := a
  obtain ⟨rb, ub⟩ := b
  obtain ⟨href, hu⟩ := h
  simp only at href
  subst href
  cases ua with
  | none =>
    cases ub with
    | none => rfl
    | some lb => exact absurd hu (by simp [usernamesReordered])
  | some la =>
    cases ub with
    | none => exact absurd hu (by simp [usernamesReordered])
    | some lb =>
      have hp : List.Perm la lb := hu
      simp [sortUsernames, (sortSlice_strings_eq_iff la lb).mpr hp]

theorem map_sortUsernames_of_reordered (mid status : List NSTemplateSetSpaceRole)
    (h : List.Forall₂ roleReordered mid status) :
    mid.map sortUsernames = status.map sortUsernames := by
  induction h with
  | nil => rfl
  | cons hab _ ih =>
    simp only [List.map_cons, ih, sortUsernames_eq_of_reordered _ _ hab]

theorem map_templateRef_sortUsernames (l : List NSTemplateSetSpaceRole) :
    (l.map sortUsernames).map (fun role => role.TemplateRef) =
      l.map (fun role => role.TemplateRef) := by
  simp [List.map_map, Function.comp_def, sortUsernames]

theorem spaceRolesTransform_perm (l : List NSTemplateSetSpaceRole) :
    List.Perm (spaceRolesTransform l) (l.map sortUsernames) :=
  (sortSlice_perm _ l).map sortUsernames

theorem spaceRolesTransform_sorted (l : List NSTemplateSetSpaceRole) :
    (spaceRolesTransform l).Pairwise (fun a b => a.TemplateRef ≤ b.TemplateRef) := by
  unfold spaceRolesTransform
  rw [List.pairwise_map]
  exact sortSlice_sorted _ (fun role => role.TemplateRef) (fun x y => stringLess_iff _ _) l

theorem strictly_sorted_of_nodup (l : List NSTemplateSetSpaceRole)
    (hs : l.Pairwise (fun a b => a.TemplateRef ≤ b.TemplateRef))
    (hn : (l.map (fun role => role.TemplateRef)).Nodup) :
    l.Pairwise (fun a b => a.TemplateRef < b.TemplateRef) := by
  have hne : l.Pairwise (fun a b => a.TemplateRef ≠ b.TemplateRef) := by
    have h := hn
    unfold List.Nodup at h
    rwa [List.pairwise_map] at h
  exact (hs.and hne).imp (fun h => lt_of_le_of_ne h.1 h.2)

/-- Roles with pairwise distinct templates that agree, up to the order of the
roles, once the usernames of each role are sorted, have the same transform. -/
theorem spaceRolesTransform_eq (a b : List NSTemplateSetSpaceRole)
    (hp : List.Perm (a.map sortUsernames) (b.map sortUsernames))
    (hn : (b.map (fun role => role.TemplateRef)).Nodup) :
    spaceRolesTransform a = spaceRolesTransform b := by
  have hperm : List.Perm (spaceRolesTransform a) (spaceRolesTransform b) :=
    ((spaceRolesTransform_perm a).trans hp).trans (spaceRolesTransform_perm b).symm
  have hnb : ((spaceRolesTransform b).map (fun role => role.TemplateRef)).Nodup := by
    have h := ((spaceRolesTransform_perm b).map (fun role => role.TemplateRef))
    rw [map_templateRef_sortUsernames] at h
    exact h.nodup_iff.mpr hn
  have hna : ((spaceRolesTransform a).map (fun role => role.TemplateRef)).Nodup :=
    (hperm.map (fun role => role.TemplateRef)).nodup_iff.mpr hnb
  exact eq_of_perm_of_strictly_sorted (fun role => role.TemplateRef) hperm
    (strictly_sorted_of_nodup _ (spaceRolesTransform_sorted a) hna)
    (strictly_sorted_of_nodup _ (spaceRolesTransform_sorted b) hnb)

/-- The method `updateStatusSpaceRolesRevisions` when the transforms agree: no
write, and the usernames of the roles left sorted. -/
theorem spaceRoles_no_drift (r : statusManager) (nsTmplSet : NSTemplateSet)
    (h : spaceRolesTransform nsTmplSet.Spec.SpaceRoles =
      spaceRolesTransform nsTmplSet.Status.SpaceRoles) :
    updateStatusSpaceRolesRevisions r nsTmplSet =
      (r,
        { nsTmplSet with
          Spec := { nsTmplSet.Spec with
            SpaceRoles := spaceRolesTransformEffect nsTmplSet.Spec.SpaceRoles }
          Status := { nsTmplSet.Status with
            SpaceRoles := spaceRolesTransformEffect nsTmplSet.Status.SpaceRoles } },
        none) := by
  unfold updateStatusSpaceRolesRevisions cmpEqualTransformed
  simp [h]

/-- The method `updateStatusSpaceRolesRevisions` when the transforms differ:
the status takes the roles of the spec, and one write is issued. -/
theorem spaceRoles_drift (r : statusManager) (nsTmplSet : NSTemplateSet)
    (h : ¬ spaceRolesTransform nsTmplSet.Spec.SpaceRoles =
      spaceRolesTransform nsTmplSet.Status.SpaceRoles) :
    updateStatusSpaceRolesRevisions r nsTmplSet =
      r.StatusUpdate
        { nsTmplSet with
          Spec := { nsTmplSet.Spec with
            SpaceRoles := spaceRolesTransformEffect nsTmplSet.Spec.SpaceRoles }
          Status := { nsTmplSet.Status with
            SpaceRoles := spaceRolesTransformEffect nsTmplSet.Spec.SpaceRoles } } := by
  unfold updateStatusSpaceRolesRevisions cmpEqualTransformed
  simp [h]

/-- C6, the code at the failing input: the status holds two roles that share
the template `admin`, one for user `x` and one for user `y`, and the spec
holds the same two roles in the other order. The spec is a reordering of the
status, yet `updateStatusSpaceRolesRevisions` issues one status write and
replaces the roles of the status by those of the spec. -/
theorem C6_reordered_roles_sharing_a_template_are_written :
    spaceRolesReordered sharedRefSpec sharedRefStatus ∧
    (updateStatusSpaceRolesRevisions freshManager
      (withSpaceRoles sharedRefSpec sharedRefStatus)).1.statusWrites.length = 1 ∧
    (updateStatusSpaceRolesRevisions freshManager
      (withSpaceRoles sharedRefSpec sharedRefStatus)).2.1.Status.SpaceRoles = sharedRefSpec ∧
    sharedRefSpec ≠ sharedRefStatus :=
  ⟨⟨sharedRefStatus,
      List.Forall₂.cons ⟨rfl, List.Perm.refl _⟩
        (List.Forall₂.cons ⟨rfl, List.Perm.refl _⟩ List.Forall₂.nil),
      List.Perm.swap _ _ _⟩,
    by decide, by decide, by decide⟩

/-- Where the reordering of roles is no drift: when the roles of the status
have pairwise distinct templates and the roles of the spec are obtained from
them by reordering the roles and the usernames inside each role,
`updateStatusSpaceRolesRevisions` issues no status write, returns nil and
does not give the status the roles of the spec: the status keeps its roles in
their order, the usernames of each role being left sorted by the comparison,
as are those of the spec. -/
theorem distinct_templates_reordering_is_no_drift (r : statusManager)
    (nsTmplSet : NSTemplateSet)
    (hdistinct : (nsTmplSet.Status.SpaceRoles.map (fun role => role.TemplateRef)).Nodup)
    (hreordered : spaceRolesReordered nsTmplSet.Spec.SpaceRoles nsTmplSet.Status.SpaceRoles) :
    (updateStatusSpaceRolesRevisions r nsTmplSet).1.statusWrites = r.statusWrites ∧
    (updateStatusSpaceRolesRevisions r nsTmplSet).2.2 = none ∧
    (updateStatusSpaceRolesRevisions r nsTmplSet).2.1.Status.SpaceRoles =
      nsTmplSet.Status.SpaceRoles.map sortUsernames ∧
    (updateStatusSpaceRolesRevisions r nsTmplSet).2.1.Spec.SpaceRoles =
      nsTmplSet.Spec.SpaceRoles.map sortUsernames := by
  obtain ⟨mid, hmid, hperm⟩ := hreordered
  have hp : List.Perm (nsTmplSet.Spec.SpaceRoles.map sortUsernames)
      (nsTmplSet.Status.SpaceRoles.map sortUsernames) := by
    rw [← map_sortUsernames_of_reordered mid _ hmid]
    exact hperm.map sortUsernames
  rw [spaceRoles_no_drift r nsTmplSet (spaceRolesTransform_eq _ _ hp hdistinct)]
  exact ⟨rfl, rfl, rfl, rfl⟩

/-- An instance of `distinct_templates_reordering_is_no_drift`: roles `admin`
and `viewer`, swapped in the spec, with the usernames of `admin` swapped
too. -/
theorem distinct_templates_reordering_example :
    (distinctRefStatus.map (fun role => role.TemplateRef)).Nodup ∧
    spaceRolesReordered distinctRefSpec distinctRefStatus ∧
    (updateStatusSpaceRolesRevisions freshManager
      (withSpaceRoles distinctRefSpec distinctRefStatus)).1.statusWrites =
        freshManager.statusWrites ∧
    (updateStatusSpaceRolesRevisions freshManager
      (withSpaceRoles distinctRefSpec distinctRefStatus)).2.1.Status.SpaceRoles =
        distinctRefStatus.map sortUsernames :=
  ⟨by decide,
    ⟨[{ TemplateRef := "admin", Usernames := some ["y", "x"] },
       { TemplateRef := "viewer", Usernames := some ["z"] }],
      List.Forall₂.cons ⟨rfl, List.Perm.swap _ _ _⟩
        (List.Forall₂.cons ⟨rfl, List.Perm.refl _⟩ List.Forall₂.nil),
      List.Perm.swap _ _ _⟩,
    (distinct_templates_reordering_is_no_drift freshManager
      (withSpaceRoles distinctRefSpec distinctRefStatus) (by decide)
      ⟨[{ TemplateRef := "admin", Usernames := some ["y", "x"] },
         { TemplateRef := "viewer", Usernames := some ["z"] }],
        List.Forall₂.cons ⟨rfl, List.Perm.swap _ _ _⟩
          (List.Forall₂.cons ⟨rfl, List.Perm.refl _⟩ List.Forall₂.nil),
        List.Perm.swap _ _ _⟩).1,
    (distinct_templates_reordering_is_no_drift freshManager
      (withSpaceRoles distinctRefSpec distinctRefStatus) (by decide)
      ⟨[{ TemplateRef := "admin", Usernames := some ["y", "x"] },
         { TemplateRef := "viewer", Usernames := some ["z"] }],
        List.Forall₂.cons ⟨rfl, List.Perm.swap _ _ _⟩
          (List.Forall₂.cons ⟨rfl, List.Perm.refl _⟩ List.Forall₂.nil),
        List.Perm.swap _ _ _⟩).2.2.1⟩

theorem insertBackward_map {α β : Type} (less : α → α → Bool) (lessMapped : β → β → Bool)
    (f : α → β) (hf : ∀ a b, lessMapped (f a) (f b) = less a b) (x : α) (l : List α) :
    (insertBackward less x l).map f = insertBackward lessMapped (f x) (l.map f) := by
  induction l with
  | nil => rfl
  | cons y ys ih =>
    simp only [insertBackward, List.map_cons, hf]
    by_cases h : less x y = true
    · rw [if_pos h, if_pos h, List.map_cons, ih]
    · rw [if_neg h, if_neg h]
      rfl

theorem foldl_insertBackward_map {α β : Type} (less : α → α → Bool)
    (lessMapped : β → β → Bool) (f : α → β) (hf : ∀ a b, lessMapped (f a) (f b) = less a b)
    (l : List α) :
    ∀ run : List α,
      (l.foldl (fun sortedRun x => insertBackward less x sortedRun) run).map f =
        (l.map f).foldl (fun sortedRun x => insertBackward lessMapped x sortedRun)
          (run.map f) := by
  induction l with
  | nil => intro run; rfl
  | cons a l ih =>
    intro run
    simp only [List.foldl_cons, List.map_cons]
    rw [ih, insertBackward_map less lessMapped f hf]

/-- Sorting commutes with a map that does not change how elements compare. -/
theorem sortSlice_map {α β : Type} (less : α → α → Bool) (lessMapped : β → β → Bool)
    (f : α → β) (hf : ∀ a b, lessMapped (f a) (f b) = less a b) (l : List α) :
    (sortSlice less l).map f = sortSlice lessMapped (l.map f) := by
  unfold sortSlice
  rw [List.map_reverse, foldl_insertBackward_map less lessMapped f hf]
  rfl

/-- Where the reordering of usernames is no drift: when each role of the spec
is the role of the status at the same position with its usernames reordered,
whatever the templates of the roles, `updateStatusSpaceRolesRevisions`
issues no status write and returns nil. -/
theorem usernames_reordering_is_no_drift (r : statusManager) (nsTmplSet : NSTemplateSet)
    (h : List.Forall₂ roleReordered nsTmplSet.Spec.SpaceRoles nsTmplSet.Status.SpaceRoles) :
    (updateStatusSpaceRolesRevisions r nsTmplSet).1.statusWrites = r.statusWrites ∧
    (updateStatusSpaceRolesRevisions r nsTmplSet).2.2 = none ∧
    (updateStatusSpaceRolesRevisions r nsTmplSet).2.1.Status.SpaceRoles =
      nsTmplSet.Status.SpaceRoles.map sortUsernames := by
  have hmap := map_sortUsernames_of_reordered _ _ h
  have hcomm : ∀ l : List NSTemplateSetSpaceRole, spaceRolesTransform l =
      sortSlice (fun a b => stringLess a.TemplateRef b.TemplateRef) (l.map sortUsernames) :=
    fun l => sortSlice_map
      (fun a b : NSTemplateSetSpaceRole => stringLess a.TemplateRef b.TemplateRef)
      (fun a b : NSTemplateSetSpaceRole => stringLess a.TemplateRef b.TemplateRef)
      sortUsernames (fun _ _ => rfl) l
  have heq : spaceRolesTransform nsTmplSet.Spec.SpaceRoles =
      spaceRolesTransform nsTmplSet.Status.SpaceRoles := by
    rw [hcomm, hcomm, hmap]
  rw [spaceRoles_no_drift r nsTmplSet heq]
  exact ⟨rfl, rfl, rfl⟩

theorem usernames_mem_of_sortUsernames_eq (a b : NSTemplateSetSpaceRole)
    (h : sortUsernames a = sortUsernames b) :
    ∀ u : String, u ∈ usernamesOf a ↔ u ∈ usernamesOf b := by
  obtain ⟨ra, ua⟩ := a
  obtain ⟨rb, ub⟩ := b
  have hu : ua.map (sortSlice stringLess) = ub.map (sortSlice stringLess) := by
    have := congrArg NSTemplateSetSpaceRole.Usernames h
    simpa [sortUsernames] using this
  intro u
  cases ua with
  | none =>
    cases ub with
    | none => rfl
    | some lb => simp at hu
  | some la =>
    cases ub with
    | none => simp at hu
    | some lb =>
      simp only [Option.map_some', Option.some.injEq] at hu
      exact ((sortSlice_strings_eq_iff la lb).mp hu).mem_iff

/-- C7: when the spec and the status hold the same pairwise distinct
templates and some role of the spec has usernames that differ, as a set, from
those of the role of the status with the same template,
`updateStatusSpaceRolesRevisions` detects drift: after the call the roles of
the status are the roles of the spec (the usernames of each role left sorted
by the comparison), and exactly one status write, of that object, is
issued. -/
theorem C7_changed_usernames_is_drift (r : statusManager) (nsTmplSet : NSTemplateSet)
    (_hspec : (nsTmplSet.Spec.SpaceRoles.map (fun role => role.TemplateRef)).Nodup)
    (hstatus : (nsTmplSet.Status.SpaceRoles.map (fun role => role.TemplateRef)).Nodup)
    (_hsame : List.Perm (nsTmplSet.Spec.SpaceRoles.map (fun role => role.TemplateRef))
      (nsTmplSet.Status.SpaceRoles.map (fun role => role.TemplateRef)))
    (hdiffer : ∃ a ∈ nsTmplSet.Spec.SpaceRoles, ∃ b ∈ nsTmplSet.Status.SpaceRoles,
      a.TemplateRef = b.TemplateRef ∧ ¬ (∀ u : String, u ∈ usernamesOf a ↔ u ∈ usernamesOf b)) :
    (updateStatusSpaceRolesRevisions r nsTmplSet).2.1.Status.SpaceRoles =
      (updateStatusSpaceRolesRevisions r nsTmplSet).2.1.Spec.SpaceRoles ∧
    (updateStatusSpaceRolesRevisions r nsTmplSet).2.1.Spec.SpaceRoles =
      nsTmplSet.Spec.SpaceRoles.map sortUsernames ∧
    (updateStatusSpaceRolesRevisions r nsTmplSet).1.statusWrites =
      r.statusWrites ++ [(updateStatusSpaceRolesRevisions r nsTmplSet).2.1] := by
  have hne : ¬ spaceRolesTransform nsTmplSet.Spec.SpaceRoles =
      spaceRolesTransform nsTmplSet.Status.SpaceRoles := by
    intro heq
    obtain ⟨a, ha, b, hb, href, hdiff⟩ := hdiffer
    have ha1 : sortUsernames a ∈ spaceRolesTransform nsTmplSet.Spec.SpaceRoles :=
      (spaceRolesTransform_perm _).mem_iff.mpr (List.mem_map_of_mem sortUsernames ha)
    rw [heq] at ha1
    obtain ⟨b1, hb1, hb1eq⟩ := List.mem_map.mp ((spaceRolesTransform_perm _).mem_iff.mp ha1)
    have hrefs : b1.TemplateRef = b.TemplateRef := by
      have := congrArg NSTemplateSetSpaceRole.TemplateRef hb1eq
      simp only [sortUsernames] at this
      rw [this, href]
    have hbb : b1 = b :=
      List.inj_on_of_nodup_map hstatus hb1 hb hrefs
    rw [hbb] at hb1eq
    exact hdiff (usernames_mem_of_sortUsernames_eq a b hb1eq.symm)
  rw [spaceRoles_drift r nsTmplSet hne]
  exact ⟨rfl, rfl, rfl⟩

/-- Witness of C7: the role `admin` has users `w`, `x` in the spec and `x`, `y`
in the status. -/
theorem C7_witness :
    (changedUsersSpec.map (fun role => role.TemplateRef)).Nodup ∧
    (distinctRefStatus.map (fun role => role.TemplateRef)).Nodup ∧
    (updateStatusSpaceRolesRevisions freshManager
      (withSpaceRoles changedUsersSpec distinctRefStatus)).2.1.Status.SpaceRoles =
      (updateStatusSpaceRolesRevisions freshManager
        (withSpaceRoles changedUsersSpec distinctRefStatus)).2.1.Spec.SpaceRoles ∧
    (updateStatusSpaceRolesRevisions freshManager
      (withSpaceRoles changedUsersSpec distinctRefStatus)).2.1.Spec.SpaceRoles =
      changedUsersSpec.map sortUsernames ∧
    (updateStatusSpaceRolesRevisions freshManager
      (withSpaceRoles changedUsersSpec distinctRefStatus)).1.statusWrites =
      freshManager.statusWrites ++ [(updateStatusSpaceRolesRevisions freshManager
        (withSpaceRoles changedUsersSpec distinctRefStatus)).2.1] :=
  ⟨by decide, by decide,
    C7_changed_usernames_is_drift freshManager
      (withSpaceRoles changedUsersSpec distinctRefStatus) (by decide) (by decide)
      (List.Perm.swap _ _ _)
      ⟨{ TemplateRef := "admin", Usernames := some ["w", "x"] }, by decide,
        { TemplateRef := "admin", Usernames := some ["x", "y"] }, by decide, rfl,
        fun h => absurd ((h "w").mp (by decide)) (by decide)⟩⟩

/-! ## C8: feature toggles -/

theorem featureAnnotationNeedsUpdate_eq (nsTmplSet : NSTemplateSet) :
    featureAnnotationNeedsUpdate nsTmplSet =
      (!decide (some (SplitCommaSeparatedList (featureAnnotationOf nsTmplSet)) =
          nsTmplSet.Status.FeatureToggles),
        SplitCommaSeparatedList (featureAnnotationOf nsTmplSet)) := rfl

/-- The feature toggles `b,a` of the annotation against the stored toggles
`a`, `b`: the transformer declared on `[]int` is not applied to the two
`[]string` operands, and the reordering is reported as a needed update. -/
theorem featureToggles_reordered_needs_update :
    (featureAnnotationNeedsUpdate (withToggles "b,a" (some ["a", "b"]))).1 = true := by
  decide

/-- C8, counterexample: the annotation `a,a` against the stored toggles `a`.
The entries of the annotation differ from the stored toggles by a duplicate
only (they have the same members), yet `featureAnnotationNeedsUpdate` returns
true and `updateStatusClusterResourcesRevisions`, with the cluster resources
of spec and status equal, issues a status write. -/
theorem C8_counterexample :
    (∀ u : String, u ∈ SplitCommaSeparatedList (featureAnnotationOf (withToggles "a,a" (some ["a"])))
      ↔ u ∈ ["a"]) ∧
    (featureAnnotationNeedsUpdate (withToggles "a,a" (some ["a"]))).1 = true ∧
    clusterResourcesNeedsUpdate (withToggles "a,a" (some ["a"])) = some false ∧
    (updateStatusClusterResourcesRevisions freshManager (withToggles "a,a" (some ["a"]))).map
      (fun out => out.1.statusWrites.length) = some 1 := by
  refine ⟨?_, by decide, by decide, by decide⟩
  have h : SplitCommaSeparatedList (featureAnnotationOf (withToggles "a,a" (some ["a"]))) =
      ["a", "a"] := by decide
  rw [h]
  intro u
  simp

theorem featureAnnotationNeedsUpdate_of_not_reordering (nsTmplSet : NSTemplateSet)
    (h : ¬ List.Perm (SplitCommaSeparatedList (featureAnnotationOf nsTmplSet))
      (featureTogglesOf nsTmplSet)) :
    (featureAnnotationNeedsUpdate nsTmplSet).1 = true := by
  rw [featureAnnotationNeedsUpdate_eq]
  have hne : ¬ (some (SplitCommaSeparatedList (featureAnnotationOf nsTmplSet)) =
      nsTmplSet.Status.FeatureToggles) := by
    intro heq
    apply h
    unfold featureTogglesOf
    rw [← heq]
    exact List.Perm.refl _
  simp [hne]

theorem featureAnnotationNeedsUpdate_of_stored (nsTmplSet : NSTemplateSet)
    (h : nsTmplSet.Status.FeatureToggles =
      some (SplitCommaSeparatedList (featureAnnotationOf nsTmplSet))) :
    (featureAnnotationNeedsUpdate nsTmplSet).1 = false := by
  rw [featureAnnotationNeedsUpdate_eq, h]
  simp

/-- C8, amended: `featureAnnotationNeedsUpdate` counts duplicated entries.
When the stored feature toggles are the entries of the feature annotation,
each as often and in the stored order, it returns false, and
`updateStatusClusterResourcesRevisions` issues no status write on account of
the feature toggles (none at all when the cluster resources need no update).
When the entries of the annotation are not a reordering of the stored feature
toggles, as when they differ from them by a duplicated entry, it returns true.
In both cases the list it returns is the list of the entries of the
annotation. Nothing is stated about entries that are a reordering of the
stored toggles without being the stored list. -/
theorem C8_feature_toggles_duplicates_counted (r : statusManager) (nsTmplSet : NSTemplateSet) :
    (nsTmplSet.Status.FeatureToggles =
        some (SplitCommaSeparatedList (featureAnnotationOf nsTmplSet)) →
      (featureAnnotationNeedsUpdate nsTmplSet).1 = false ∧
      (clusterResourcesNeedsUpdate nsTmplSet = some false →
        updateStatusClusterResourcesRevisions r nsTmplSet = some (r, nsTmplSet, none))) ∧
    (¬ List.Perm (SplitCommaSeparatedList (featureAnnotationOf nsTmplSet))
        (featureTogglesOf nsTmplSet) →
      (featureAnnotationNeedsUpdate nsTmplSet).1 = true) ∧
    (featureAnnotationNeedsUpdate nsTmplSet).2 =
      SplitCommaSeparatedList (featureAnnotationOf nsTmplSet) := by
  refine ⟨?_, featureAnnotationNeedsUpdate_of_not_reordering nsTmplSet, rfl⟩
  intro h
  have h1 := featureAnnotationNeedsUpdate_of_stored nsTmplSet h
  refine ⟨h1, ?_⟩
  intro hcr
  unfold updateStatusClusterResourcesRevisions
  simp [h1, hcr]

/-- Witness of C8 amended: the annotation `a,b` against the stored toggles
`a`, `b` (no update, no write), and the annotation `a,a` against the stored
toggles `a` (update needed). -/
theorem C8_witness :
    (withToggles "a,b" (some ["a", "b"])).Status.FeatureToggles =
      some (SplitCommaSeparatedList (featureAnnotationOf (withToggles "a,b" (some ["a", "b"])))) ∧
    (featureAnnotationNeedsUpdate (withToggles "a,b" (some ["a", "b"]))).1 = false ∧
    updateStatusClusterResourcesRevisions freshManager (withToggles "a,b" (some ["a", "b"])) =
      some (freshManager, withToggles "a,b" (some ["a", "b"]), none) ∧
    (featureAnnotationNeedsUpdate (withToggles "a,a" (some ["a"]))).1 = true :=
  ⟨by decide,
    ((C8_feature_toggles_duplicates_counted freshManager
      (withToggles "a,b" (some ["a", "b"]))).1 (by decide)).1,
    ((C8_feature_toggles_duplicates_counted freshManager
      (withToggles "a,b" (some ["a", "b"]))).1 (by decide)).2 (by decide),
    (C8_feature_toggles_duplicates_counted freshManager
      (withToggles "a,a" (some ["a"]))).2.1
      (fun h => absurd h.length_eq (by decide))⟩

/-! ## C9: cluster resources revisions -/

theorem clusterResourcesNeedsUpdate_iff (nsTmplSet : NSTemplateSet)
    (hpresent : ¬ (nsTmplSet.Spec.ClusterResources = none ∧
      nsTmplSet.Status.ClusterResources = none)) :
    (clusterResourcesDiffer nsTmplSet → clusterResourcesNeedsUpdate nsTmplSet = some true) ∧
    (¬ clusterResourcesDiffer nsTmplSet → clusterResourcesNeedsUpdate nsTmplSet = some false) := by
  obtain ⟨ann, spec, status⟩ := nsTmplSet
  obtain ⟨sns, scr, ssr⟩ := spec
  obtain ⟨tc, tp, tns, tcr, tsr, tft⟩ := status
  cases scr with
  | none =>
    cases tcr with
    | none => exact absurd ⟨rfl, rfl⟩ hpresent
    | some st =>
      constructor
      · intro _
        simp [clusterResourcesNeedsUpdate]
      · intro h
        exact absurd (Or.inl ⟨rfl, by simp⟩) h
  | some sp =>
    cases tcr with
    | none =>
      constructor
      · intro _
        simp [clusterResourcesNeedsUpdate]
      · intro h
        exact absurd (Or.inr (Or.inl ⟨by simp, rfl⟩)) h
    | some st =>
      by_cases href : sp.TemplateRef = st.TemplateRef
      · constructor
        · intro h
          rcases h with h | h | ⟨a, b, ha, hb, hab⟩
          · simp at h
          · simp at h
          · simp only [Option.some.injEq] at ha hb
            subst ha
            subst hb
            exact absurd href hab
        · intro _
          simp [clusterResourcesNeedsUpdate, href]
      · constructor
        · intro _
          have : ¬ st.TemplateRef = sp.TemplateRef := fun h => href h.symm
          simp [clusterResourcesNeedsUpdate, this]
        · intro h
          exact absurd (Or.inr (Or.inr ⟨sp, st, rfl, rfl, href⟩)) h

/-- The method `updateStatusClusterResourcesRevisions` by the answer of
`featureAnnotationNeedsUpdate`, for an object whose cluster resources are not
absent from both spec and status: the status is committed with one write when
the cluster resources differ or the answer is true, and nothing is done
otherwise. -/
theorem clusterResourcesRevisions_by_answer (r : statusManager) (nsTmplSet : NSTemplateSet)
    (hpresent : ¬ (nsTmplSet.Spec.ClusterResources = none ∧
      nsTmplSet.Status.ClusterResources = none)) :
    ((clusterResourcesDiffer nsTmplSet ∨ (featureAnnotationNeedsUpdate nsTmplSet).1 = true) →
      ∃ out : Outcome, updateStatusClusterResourcesRevisions r nsTmplSet = some out ∧
        out.2.1 = { nsTmplSet with
          Status := { nsTmplSet.Status with
            FeatureToggles := some (SplitCommaSeparatedList (featureAnnotationOf nsTmplSet))
            ClusterResources := nsTmplSet.Spec.ClusterResources } } ∧
        out.1.statusWrites = r.statusWrites ++ [out.2.1]) ∧
    (¬ (clusterResourcesDiffer nsTmplSet ∨ (featureAnnotationNeedsUpdate nsTmplSet).1 = true) →
      updateStatusClusterResourcesRevisions r nsTmplSet = some (r, nsTmplSet, none)) := by
  have hcr := clusterResourcesNeedsUpdate_iff nsTmplSet hpresent
  constructor
  · intro h
    refine ⟨r.StatusUpdate { nsTmplSet with
          Status := { nsTmplSet.Status with
            FeatureToggles := some (SplitCommaSeparatedList (featureAnnotationOf nsTmplSet))
            ClusterResources := nsTmplSet.Spec.ClusterResources } }, ?_, rfl, rfl⟩
    by_cases hf : (featureAnnotationNeedsUpdate nsTmplSet).1 = true
    · unfold updateStatusClusterResourcesRevisions
      simp only [hf, if_true]
      rfl
    · have hd : clusterResourcesDiffer nsTmplSet := h.resolve_right hf
      have hf0 : (featureAnnotationNeedsUpdate nsTmplSet).1 = false := by
        simpa using hf
      unfold updateStatusClusterResourcesRevisions
      simp only [hf0, hcr.1 hd]
      rfl
  · intro h
    have hf : (featureAnnotationNeedsUpdate nsTmplSet).1 = false := by
      have : ¬ (featureAnnotationNeedsUpdate nsTmplSet).1 = true := fun hf => h (Or.inr hf)
      simpa using this
    have hd : ¬ clusterResourcesDiffer nsTmplSet := fun hd => h (Or.inl hd)
    unfold updateStatusClusterResourcesRevisions
    simp only [hf, hcr.2 hd]
    rfl

theorem not_differ_of_same (nsTmplSet : NSTemplateSet) (x : NSTemplateSetClusterResources)
    (hspec : nsTmplSet.Spec.ClusterResources = some x)
    (hstatus : nsTmplSet.Status.ClusterResources = some x) :
    ¬ clusterResourcesDiffer nsTmplSet := by
  intro h
  rcases h with h | h | ⟨a, b, ha, hb, hab⟩
  · rw [hspec] at h
    exact absurd h.1 (by simp)
  · rw [hstatus] at h
    exact absurd h.2 (by simp)
  · rw [hspec] at ha
    rw [hstatus] at hb
    have ha1 := Option.some.inj ha
    have hb1 := Option.some.inj hb
    exact hab (by rw [← ha1, ← hb1])

/-- C9, counterexample: the cluster resources `x` are in the spec and in the
status, the feature annotation is `f1,f2,f1` and the stored feature toggles
are `f1`, `f2`. The cluster resources do not differ and the feature toggles
are the same set, yet `updateStatusClusterResourcesRevisions` issues one
status write and replaces the stored toggles. -/
theorem C9_counterexample :
    ¬ ((withToggles "f1,f2,f1" (some ["f1", "f2"])).Spec.ClusterResources = none ∧
      (withToggles "f1,f2,f1" (some ["f1", "f2"])).Status.ClusterResources = none) ∧
    ¬ clusterResourcesDiffer (withToggles "f1,f2,f1" (some ["f1", "f2"])) ∧
    (∀ u : String,
      u ∈ SplitCommaSeparatedList (featureAnnotationOf (withToggles "f1,f2,f1" (some ["f1", "f2"])))
        ↔ u ∈ featureTogglesOf (withToggles "f1,f2,f1" (some ["f1", "f2"]))) ∧
    (updateStatusClusterResourcesRevisions freshManager
      (withToggles "f1,f2,f1" (some ["f1", "f2"]))).map
        (fun out => out.1.statusWrites.length) = some 1 ∧
    (updateStatusClusterResourcesRevisions freshManager
      (withToggles "f1,f2,f1" (some ["f1", "f2"]))).map
        (fun out => out.2.1.Status.FeatureToggles) = some (some ["f1", "f2", "f1"]) := by
  refine ⟨by decide, not_differ_of_same _ { TemplateRef := "x" } rfl rfl, ?_, by decide,
    by decide⟩
  have h : SplitCommaSeparatedList
      (featureAnnotationOf (withToggles "f1,f2,f1" (some ["f1", "f2"]))) =
      ["f1", "f2", "f1"] := by decide
  have h2 : featureTogglesOf (withToggles "f1,f2,f1" (some ["f1", "f2"])) = ["f1", "f2"] := rfl
  rw [h, h2]
  intro u
  simp
  tauto

/-- C9, amended: for an object whose cluster resources are not absent from
both spec and status. If their presence differs, or both are present with
different template references, or the entries of the feature annotation are
not a reordering of the stored feature toggles (duplicated entries counted),
`updateStatusClusterResourcesRevisions` sets the cluster resources of the
status to those of the spec (nil when the spec has none), sets the feature
toggles of the status to the entries of the annotation, changes nothing else
and issues exactly one status write, of that object. When the cluster
resources are present on both sides with the same template reference and the
stored feature toggles are the entries of the annotation, each as often and in
the stored order, it issues no write, returns nil and leaves the object
unchanged. Nothing is stated about entries that are a reordering of the
stored toggles without being the stored list. -/
theorem C9_cluster_resources_revisions (r : statusManager) (nsTmplSet : NSTemplateSet)
    (hpresent : ¬ (nsTmplSet.Spec.ClusterResources = none ∧
      nsTmplSet.Status.ClusterResources = none)) :
    ((clusterResourcesDiffer nsTmplSet ∨
        ¬ List.Perm (SplitCommaSeparatedList (featureAnnotationOf nsTmplSet))
          (featureTogglesOf nsTmplSet)) →
      ∃ out : Outcome, updateStatusClusterResourcesRevisions r nsTmplSet = some out ∧
        out.2.1 = { nsTmplSet with
          Status := { nsTmplSet.Status with
            FeatureToggles := some (SplitCommaSeparatedList (featureAnnotationOf nsTmplSet))
            ClusterResources := nsTmplSet.Spec.ClusterResources } } ∧
        out.1.statusWrites = r.statusWrites ++ [out.2.1]) ∧
    ((¬ clusterResourcesDiffer nsTmplSet ∧
        nsTmplSet.Status.FeatureToggles =
          some (SplitCommaSeparatedList (featureAnnotationOf nsTmplSet))) →
      updateStatusClusterResourcesRevisions r nsTmplSet = some (r, nsTmplSet, none)) := by
  have hcases := clusterResourcesRevisions_by_answer r nsTmplSet hpresent
  constructor
  · intro h
    apply hcases.1
    rcases h with h | h
    · exact Or.inl h
    · exact Or.inr (featureAnnotationNeedsUpdate_of_not_reordering nsTmplSet h)
  · intro h
    apply hcases.2
    intro hor
    rcases hor with hd | hf
    · exact h.1 hd
    · rw [featureAnnotationNeedsUpdate_of_stored nsTmplSet h.2] at hf
      exact absurd hf (by decide)

/-- Witness of C9 amended: the spec has no cluster resources and the status
has the cluster resources `x`; the update clears those of the status and
issues one write. With `x` on both sides and the stored toggles equal to the
entries of the annotation there is no write. -/
theorem C9_witness :
    (∃ out : Outcome,
      updateStatusClusterResourcesRevisions freshManager
        (withClusterResources none (some { TemplateRef := "x" })) = some out ∧
      out.2.1 = withClusterResources none none ∧
      out.1.statusWrites = freshManager.statusWrites ++ [out.2.1]) ∧
    updateStatusClusterResourcesRevisions freshManager
        (withClusterResources (some { TemplateRef := "x" }) (some { TemplateRef := "x" })) =
      some (freshManager,
        withClusterResources (some { TemplateRef := "x" }) (some { TemplateRef := "x" }), none) :=
  ⟨(C9_cluster_resources_revisions freshManager
      (withClusterResources none (some { TemplateRef := "x" })) (by decide)).1
      (Or.inl (Or.inl ⟨rfl, by decide⟩)),
    (C9_cluster_resources_revisions freshManager
      (withClusterResources (some { TemplateRef := "x" }) (some { TemplateRef := "x" }))
      (by decide)).2
      ⟨not_differ_of_same _ { TemplateRef := "x" } rfl rfl, by decide⟩⟩

/-! ## C10: provisioned namespaces -/

/-- C10: for a list of namespaces that is not empty,
`updateStatusProvisionedNamespaces` sets the provisioned namespaces of the
status to one entry per given namespace, in ascending order of name; the first
entry, whose name is the smallest of all, has type `default` and every other
entry has the empty type; nothing else changes and one status write, of that
object, is issued. For the names `zeta`, `alpha`, `mid` the entries are
`alpha` (default), `mid`, `zeta`. -/
theorem C10_default_is_first_by_name (r : statusManager) (nsTmplSet : NSTemplateSet)
    (namespaces : List Namespace) (hne : namespaces ≠ []) :
    List.Perm
      ((updateStatusProvisionedNamespaces r nsTmplSet namespaces).2.1.Status.ProvisionedNamespaces.map
        (fun p => p.Name))
      (namespaces.map (fun ns => ns.Name)) ∧
    (updateStatusProvisionedNamespaces r nsTmplSet namespaces).2.1.Status.ProvisionedNamespaces.Pairwise
      (fun a b => a.Name ≤ b.Name) ∧
    (∃ first rest,
      (updateStatusProvisionedNamespaces r nsTmplSet namespaces).2.1.Status.ProvisionedNamespaces =
        first :: rest ∧
      first.Type_ = NamespaceTypeDefault ∧
      (∀ p ∈ rest, p.Type_ = "") ∧
      (∀ ns ∈ namespaces, first.Name ≤ ns.Name)) ∧
    (updateStatusProvisionedNamespaces r nsTmplSet namespaces).2.1 =
      { nsTmplSet with Status := { nsTmplSet.Status with
        ProvisionedNamespaces :=
          (updateStatusProvisionedNamespaces r nsTmplSet namespaces).2.1.Status.ProvisionedNamespaces } } ∧
    (updateStatusProvisionedNamespaces r nsTmplSet namespaces).1.statusWrites =
      r.statusWrites ++ [(updateStatusProvisionedNamespaces r nsTmplSet namespaces).2.1] ∧
    (updateStatusProvisionedNamespaces r nsTmplSet
      [{ Name := "zeta" }, { Name := "alpha" }, { Name := "mid" }]).2.1.Status.ProvisionedNamespaces =
      [{ Name := "alpha", Type_ := NamespaceTypeDefault }, { Name := "mid", Type_ := "" },
        { Name := "zeta", Type_ := "" }] := by
  have hlen : ¬ namespaces.length = 0 := fun h => hne (List.length_eq_zero.mp h)
  have hperm := sortSlice_perm (fun a b : SpaceNamespace => stringLess a.Name b.Name)
    (namespaces.map (fun ns => ({ Name := ns.Name, Type_ := "" } : SpaceNamespace)))
  have hsorted := sortSlice_sorted (fun a b : SpaceNamespace => stringLess a.Name b.Name)
    (fun p => p.Name) (fun x y => stringLess_iff _ _)
    (namespaces.map (fun ns => ({ Name := ns.Name, Type_ := "" } : SpaceNamespace)))
  have hval : (updateStatusProvisionedNamespaces r nsTmplSet namespaces) =
      r.StatusUpdate { nsTmplSet with Status := { nsTmplSet.Status with
        ProvisionedNamespaces :=
          (sortSlice (fun a b : SpaceNamespace => stringLess a.Name b.Name)
            (namespaces.map (fun ns => ({ Name := ns.Name, Type_ := "" } : SpaceNamespace)))).modifyHead
            (fun first => { first with Type_ := NamespaceTypeDefault }) } } := by
    unfold updateStatusProvisionedNamespaces
    simp only [hlen, if_false]
  rw [hval]
  simp only [statusManager.StatusUpdate]
  generalize hS : sortSlice (fun a b : SpaceNamespace => stringLess a.Name b.Name)
    (namespaces.map (fun ns => ({ Name := ns.Name, Type_ := "" } : SpaceNamespace))) = S at *
  cases S with
  | nil =>
    have := hperm.length_eq
    simp at this
    exact absurd (List.length_eq_zero.mp this.symm) hne
  | cons first0 rest0 =>
    have hmem : ∀ p ∈ first0 :: rest0, p.Type_ = "" := by
      intro p hp
      obtain ⟨ns, _, hns⟩ := List.mem_map.mp (hperm.mem_iff.mp hp)
      rw [← hns]
    rw [List.pairwise_cons] at hsorted
    refine ⟨?_, ?_, ⟨_, rest0, rfl, rfl, ?_, ?_⟩, trivial, trivial, rfl⟩
    · have := hperm.map (fun p : SpaceNamespace => p.Name)
      simpa [List.modifyHead, List.map_map, Function.comp_def] using this
    · simp only [List.modifyHead, List.pairwise_cons]
      exact hsorted
    · intro p hp
      exact hmem p (List.mem_cons_of_mem _ hp)
    · intro ns hns
      have hin : ({ Name := ns.Name, Type_ := "" } : SpaceNamespace) ∈ first0 :: rest0 :=
        hperm.mem_iff.mpr (List.mem_map.mpr ⟨ns, hns, rfl⟩)
      rcases List.mem_cons.mp hin with h | h
      · simp only [← h]
        exact le_refl _
      · exact hsorted.1 _ h

/-- Witness of C10: the namespaces `zeta`, `alpha`, `mid`. -/
theorem C10_witness :
    ([{ Name := "zeta" }, { Name := "alpha" }, { Name := "mid" }] : List Namespace) ≠ [] ∧
    (updateStatusProvisionedNamespaces freshManager emptySet
      [{ Name := "zeta" }, { Name := "alpha" }, { Name := "mid" }]).2.1.Status.ProvisionedNamespaces =
      [{ Name := "alpha", Type_ := NamespaceTypeDefault }, { Name := "mid", Type_ := "" },
        { Name := "zeta", Type_ := "" }] ∧
    (updateStatusProvisionedNamespaces freshManager emptySet
      [{ Name := "zeta" }, { Name := "alpha" }, { Name := "mid" }]).1.statusWrites =
      freshManager.statusWrites ++ [(updateStatusProvisionedNamespaces freshManager emptySet
        [{ Name := "zeta" }, { Name := "alpha" }, { Name := "mid" }]).2.1] :=
  ⟨by decide,
    (C10_default_is_first_by_name freshManager emptySet
      [{ Name := "zeta" }, { Name := "alpha" }, { Name := "mid" }] (by decide)).2.2.2.2.2,
    (C10_default_is_first_by_name freshManager emptySet
      [{ Name := "zeta" }, { Name := "alpha" }, { Name := "mid" }] (by decide)).2.2.2.2.1⟩

/-! ## C11: the guarded setters -/

/-- C11: `setStatusProvisioningIfNotUpdating` does nothing when the object has
a Ready condition with reason Updating (the object and the receiver are
unchanged, no status write is issued, nil is returned), and in every other
state, the absence of a Ready condition included, it leaves the Ready
condition with status False, reason Provisioning and an empty message.
Symmetrically `setStatusUpdatingIfNotProvisioning` does nothing when the
object has a Ready condition with reason Provisioning, and in every other
state leaves the Ready condition with status False, reason Updating and an
empty message. -/
theorem C11_guarded_setters (r : statusManager) (now : Nat) (nsTmplSet : NSTemplateSet) :
    (((FindConditionByType nsTmplSet.Status.Conditions ConditionReady).2 = true ∧
        readyReason nsTmplSet = NSTemplateSetUpdatingReason) →
      setStatusProvisioningIfNotUpdating r now nsTmplSet = (r, nsTmplSet, none)) ∧
    (¬ ((FindConditionByType nsTmplSet.Status.Conditions ConditionReady).2 = true ∧
        readyReason nsTmplSet = NSTemplateSetUpdatingReason) →
      readyIs (setStatusProvisioningIfNotUpdating r now nsTmplSet).2.1 ConditionFalse
        NSTemplateSetProvisioningReason "") ∧
    (((FindConditionByType nsTmplSet.Status.Conditions ConditionReady).2 = true ∧
        readyReason nsTmplSet = NSTemplateSetProvisioningReason) →
      setStatusUpdatingIfNotProvisioning r now nsTmplSet = (r, nsTmplSet, none)) ∧
    (¬ ((FindConditionByType nsTmplSet.Status.Conditions ConditionReady).2 = true ∧
        readyReason nsTmplSet = NSTemplateSetProvisioningReason) →
      readyIs (setStatusUpdatingIfNotProvisioning r now nsTmplSet).2.1 ConditionFalse
        NSTemplateSetUpdatingReason "") := by
  unfold readyReason
  refine ⟨?_, ?_, ?_, ?_⟩
  · intro h
    unfold setStatusProvisioningIfNotUpdating
    simp [h.1, h.2]
  · intro h
    have hcond : ((FindConditionByType nsTmplSet.Status.Conditions ConditionReady).2 &&
        (FindConditionByType nsTmplSet.Status.Conditions ConditionReady).1.Reason ==
          NSTemplateSetUpdatingReason) = false := by
      simpa using h
    unfold setStatusProvisioningIfNotUpdating
    simp only [hcond]
    exact ready_after_update r now nsTmplSet ConditionFalse NSTemplateSetProvisioningReason ""
      0 none
  · intro h
    unfold setStatusUpdatingIfNotProvisioning
    simp [h.1, h.2]
  · intro h
    have hcond : ((FindConditionByType nsTmplSet.Status.Conditions ConditionReady).2 &&
        (FindConditionByType nsTmplSet.Status.Conditions ConditionReady).1.Reason ==
          NSTemplateSetProvisioningReason) = false := by
      simpa using h
    unfold setStatusUpdatingIfNotProvisioning
    simp only [hcond]
    exact ready_after_update r now nsTmplSet ConditionFalse NSTemplateSetUpdatingReason ""
      0 none

/-- Witness of C11: an object whose Ready condition has reason Updating, one
whose Ready condition has reason Provisioning, and one without conditions. -/
theorem C11_witness :
    setStatusProvisioningIfNotUpdating freshManager 5
        (withConditions [readyFalse NSTemplateSetUpdatingReason ""]) =
      (freshManager, withConditions [readyFalse NSTemplateSetUpdatingReason ""], none) ∧
    readyIs (setStatusProvisioningIfNotUpdating freshManager 5 emptySet).2.1 ConditionFalse
      NSTemplateSetProvisioningReason "" ∧
    setStatusUpdatingIfNotProvisioning freshManager 5
        (withConditions [readyFalse NSTemplateSetProvisioningReason ""]) =
      (freshManager, withConditions [readyFalse NSTemplateSetProvisioningReason ""], none) ∧
    readyIs (setStatusUpdatingIfNotProvisioning freshManager 5 emptySet).2.1 ConditionFalse
      NSTemplateSetUpdatingReason "" :=
  ⟨(C11_guarded_setters freshManager 5
      (withConditions [readyFalse NSTemplateSetUpdatingReason ""])).1 ⟨by decide, by decide⟩,
    (C11_guarded_setters freshManager 5 emptySet).2.1 (fun h => absurd h.1 (by decide)),
    (C11_guarded_setters freshManager 5
      (withConditions [readyFalse NSTemplateSetProvisioningReason ""])).2.2.1
      ⟨by decide, by decide⟩,
    (C11_guarded_setters freshManager 5 emptySet).2.2.2 (fun h => absurd h.1 (by decide))⟩

/-! ## C12: at most one condition per type -/

/-- The types of the conditions after an add-or-update: unchanged when the
type of the new condition is already there, extended by it otherwise. -/
theorem add_types (now : Nat) (conditions : List Condition) (c : Condition) :
    (addOrUpdateStatusCondition now conditions c).1.map (fun x => x.Type_) =
      if c.Type_ ∈ conditions.map (fun x => x.Type_) then conditions.map (fun x => x.Type_)
      else conditions.map (fun x => x.Type_) ++ [c.Type_] := by
  induction conditions with
  | nil => simp [addOrUpdateStatusCondition]
  | cons cond rest ih =>
    unfold addOrUpdateStatusCondition
    by_cases hT : cond.Type_ = c.Type_
    · have hmem : c.Type_ ∈ (cond :: rest).map (fun x => x.Type_) := by
        simp [hT]
      rw [if_pos hT, if_pos hmem]
      by_cases hS : cond.Status = c.Status ∧ cond.Reason = c.Reason ∧ cond.Message = c.Message
      · rw [if_pos hS]
      · rw [if_neg hS]
        by_cases hN : c.Status = cond.Status
        · rw [if_pos hN]
          simp [hT]
        · rw [if_neg hN]
          simp [hT]
    · rw [if_neg hT]
      simp only [List.map_cons, ih]
      have hne : ¬ c.Type_ = cond.Type_ := fun h => hT h.symm
      by_cases hm : c.Type_ ∈ rest.map (fun x => x.Type_)
      · have hmem : c.Type_ ∈ cond.Type_ :: rest.map (fun x => x.Type_) :=
          List.mem_cons_of_mem _ hm
        rw [if_pos hm, if_pos hmem]
      · have hmem : ¬ c.Type_ ∈ cond.Type_ :: rest.map (fun x => x.Type_) := by
          intro h
          rcases List.mem_cons.mp h with h | h
          · exact hne h
          · exact hm h
        rw [if_neg hm, if_neg hmem]
        rfl

theorem add_types_nodup (now : Nat) (conditions : List Condition) (c : Condition)
    (h : (conditions.map (fun x => x.Type_)).Nodup) :
    ((addOrUpdateStatusCondition now conditions c).1.map (fun x => x.Type_)).Nodup := by
  rw [add_types]
  by_cases hm : c.Type_ ∈ conditions.map (fun x => x.Type_)
  · rw [if_pos hm]
    exact h
  · rw [if_neg hm]
    refine List.Nodup.append h (List.nodup_singleton _) ?_
    intro x hx hx1
    rw [List.mem_singleton.mp hx1] at hx
    exact hm hx

theorem add_types_mem (now : Nat) (conditions : List Condition) (c : Condition) :
    c.Type_ ∈ (addOrUpdateStatusCondition now conditions c).1.map (fun x => x.Type_) := by
  rw [add_types]
  by_cases hm : c.Type_ ∈ conditions.map (fun x => x.Type_)
  · rw [if_pos hm]
    exact hm
  · rw [if_neg hm]
    simp

theorem conditions_after_update (r : statusManager) (now : Nat) (nsTmplSet : NSTemplateSet)
    (c : Condition) :
    (updateStatusConditions r now nsTmplSet [c]).2.1.Status.Conditions =
      (addOrUpdateStatusCondition now nsTmplSet.Status.Conditions c).1 := by
  unfold updateStatusConditions
  rw [add_single]
  by_cases hb : (addOrUpdateStatusCondition now nsTmplSet.Status.Conditions c).2 = true
  · simp [hb, statusManager.StatusUpdate]
  · simp [hb]

/-- Writing one condition keeps the conditions at most one per type, and
leaves exactly one condition of the type written. -/
theorem invariant_after_update (r : statusManager) (now : Nat) (nsTmplSet : NSTemplateSet)
    (c : Condition) (h : atMostOnePerType nsTmplSet) :
    atMostOnePerType (updateStatusConditions r now nsTmplSet [c]).2.1 ∧
    ((updateStatusConditions r now nsTmplSet [c]).2.1.Status.Conditions.map
      (fun x => x.Type_)).count c.Type_ = 1 := by
  unfold atMostOnePerType at h ⊢
  rw [conditions_after_update]
  exact ⟨add_types_nodup now _ c h,
    List.count_eq_one_of_mem (add_types_nodup now _ c h) (add_types_mem now _ c)⟩

/-- An unguarded setter, which writes a Ready condition with the given
status, reason and message, keeps the invariant and leaves exactly that Ready
condition. -/
theorem invariant_after_ready_write (r : statusManager) (now : Nat) (nsTmplSet : NSTemplateSet)
    (status reason message : String) (t : Nat) (u : Option Nat)
    (h : atMostOnePerType nsTmplSet) :
    atMostOnePerType (updateStatusConditions r now nsTmplSet
      [{ Type_ := ConditionReady, Status := status, Reason := reason, Message := message,
         LastTransitionTime := t, LastUpdatedTime := u }]).2.1 ∧
    exactlyOneReady (updateStatusConditions r now nsTmplSet
      [{ Type_ := ConditionReady, Status := status, Reason := reason, Message := message,
         LastTransitionTime := t, LastUpdatedTime := u }]).2.1 status reason message :=
  ⟨(invariant_after_update r now nsTmplSet _ h).1,
    (invariant_after_update r now nsTmplSet
      { Type_ := ConditionReady, Status := status, Reason := reason, Message := message,
        LastTransitionTime := t, LastUpdatedTime := u } h).2,
    ready_after_update r now nsTmplSet status reason message t u⟩

/-- C12: starting from conditions that hold at most one condition per type,
every condition operation of the status manager leaves conditions that hold
at most one condition per type, and after each of the eight unguarded setters
the conditions hold exactly one condition of type Ready, with the status,
reason and message that the setter writes. -/
theorem C12_at_most_one_condition_per_type (r : statusManager) (now : Nat)
    (nsTmplSet : NSTemplateSet) (message : String) (hinv : atMostOnePerType nsTmplSet) :
    (atMostOnePerType (setStatusReady r now nsTmplSet).2.1 ∧
      exactlyOneReady (setStatusReady r now nsTmplSet).2.1 ConditionTrue
        NSTemplateSetProvisionedReason "") ∧
    (atMostOnePerType (setStatusProvisionFailed now r nsTmplSet message).2.1 ∧
      exactlyOneReady (setStatusProvisionFailed now r nsTmplSet message).2.1 ConditionFalse
        NSTemplateSetUnableToProvisionReason message) ∧
    (atMostOnePerType (setStatusNamespaceProvisionFailed now r nsTmplSet message).2.1 ∧
      exactlyOneReady (setStatusNamespaceProvisionFailed now r nsTmplSet message).2.1
        ConditionFalse NSTemplateSetUnableToProvisionNamespaceReason message) ∧
    (atMostOnePerType (setStatusClusterResourcesProvisionFailed now r nsTmplSet message).2.1 ∧
      exactlyOneReady (setStatusClusterResourcesProvisionFailed now r nsTmplSet message).2.1
        ConditionFalse NSTemplateSetUnableToProvisionClusterResourcesReason message) ∧
    (atMostOnePerType (setStatusSpaceRolesProvisionFailed now r nsTmplSet message).2.1 ∧
      exactlyOneReady (setStatusSpaceRolesProvisionFailed now r nsTmplSet message).2.1
        ConditionFalse NSTemplateSetUnableToProvisionSpaceRolesReason message) ∧
    (atMostOnePerType (setStatusUpdateFailed now r nsTmplSet message).2.1 ∧
      exactlyOneReady (setStatusUpdateFailed now r nsTmplSet message).2.1 ConditionFalse
        NSTemplateSetUpdateFailedReason message) ∧
    (atMostOnePerType (setStatusTerminating r now nsTmplSet).2.1 ∧
      exactlyOneReady (setStatusTerminating r now nsTmplSet).2.1 ConditionFalse
        NSTemplateSetTerminatingReason "") ∧
    (atMostOnePerType (setStatusTerminatingFailed now r nsTmplSet message).2.1 ∧
      exactlyOneReady (setStatusTerminatingFailed now r nsTmplSet message).2.1 ConditionFalse
        NSTemplateSetTerminatingFailedReason message) ∧
    atMostOnePerType (setStatusProvisioningIfNotUpdating r now nsTmplSet).2.1 ∧
    atMostOnePerType (setStatusUpdatingIfNotProvisioning r now nsTmplSet).2.1 := by
  refine ⟨invariant_after_ready_write r now nsTmplSet _ _ _ 0 none hinv,
    invariant_after_ready_write r now nsTmplSet _ _ _ 0 none hinv,
    invariant_after_ready_write r now nsTmplSet _ _ _ 0 none hinv,
    invariant_after_ready_write r now nsTmplSet _ _ _ 0 none hinv,
    invariant_after_ready_write r now nsTmplSet _ _ _ 0 none hinv,
    invariant_after_ready_write r now nsTmplSet _ _ _ 0 none hinv,
    invariant_after_ready_write r now nsTmplSet _ _ _ 0 none hinv,
    invariant_after_ready_write r now nsTmplSet _ _ _ 0 none hinv, ?_, ?_⟩
  · unfold setStatusProvisioningIfNotUpdating
    by_cases hc : ((FindConditionByType nsTmplSet.Status.Conditions ConditionReady).2 &&
        (FindConditionByType nsTmplSet.Status.Conditions ConditionReady).1.Reason ==
          NSTemplateSetUpdatingReason) = true
    · simp only [hc, if_true]
      exact hinv
    · simp only [hc, if_false]
      exact (invariant_after_update r now nsTmplSet _ hinv).1
  · unfold setStatusUpdatingIfNotProvisioning
    by_cases hc : ((FindConditionByType nsTmplSet.Status.Conditions ConditionReady).2 &&
        (FindConditionByType nsTmplSet.Status.Conditions ConditionReady).1.Reason ==
          NSTemplateSetProvisioningReason) = true
    · simp only [hc, if_true]
      exact hinv
    · simp only [hc, if_false]
      exact (invariant_after_update r now nsTmplSet _ hinv).1

/-- Witness of C12: an object whose only condition is a Ready condition with
reason Updating. -/
theorem C12_witness :
    atMostOnePerType (withConditions [readyFalse NSTemplateSetUpdatingReason ""]) ∧
    exactlyOneReady (setStatusReady freshManager 5
      (withConditions [readyFalse NSTemplateSetUpdatingReason ""])).2.1 ConditionTrue
      NSTemplateSetProvisionedReason "" ∧
    exactlyOneReady (setStatusTerminatingFailed 5 freshManager
      (withConditions [readyFalse NSTemplateSetUpdatingReason ""]) "boom").2.1 ConditionFalse
      NSTemplateSetTerminatingFailedReason "boom" ∧
    atMostOnePerType (setStatusProvisioningIfNotUpdating freshManager 5
      (withConditions [readyFalse NSTemplateSetUpdatingReason ""])).2.1 :=
  ⟨by unfold atMostOnePerType; decide,
    (C12_at_most_one_condition_per_type freshManager 5
      (withConditions [readyFalse NSTemplateSetUpdatingReason ""]) "boom"
      (by unfold atMostOnePerType; decide)).1.2,
    (C12_at_most_one_condition_per_type freshManager 5
      (withConditions [readyFalse NSTemplateSetUpdatingReason ""]) "boom"
      (by unfold atMostOnePerType; decide)).2.2.2.2.2.2.2.1.2,
    (C12_at_most_one_condition_per_type freshManager 5
      (withConditions [readyFalse NSTemplateSetUpdatingReason ""]) "boom"
      (by unfold atMostOnePerType; decide)).2.2.2.2.2.2.2.2.1⟩

/-! ## C13: repeated writes of the provisioned namespaces -/

/-- For a list of namespaces that is not empty,
`updateStatusProvisionedNamespaces` issues a status write whatever the status
of the object holds already. -/
theorem updateStatusProvisionedNamespaces_writes (r : statusManager)
    (nsTmplSet : NSTemplateSet) (namespaces : List Namespace) (hne : namespaces ≠ []) :
    (updateStatusProvisionedNamespaces r nsTmplSet namespaces).1.statusWrites.length =
      r.statusWrites.length + 1 := by
  have hlen : ¬ namespaces.length = 0 := fun h => hne (List.length_eq_zero.mp h)
  unfold updateStatusProvisionedNamespaces
  simp [hlen, statusManager.StatusUpdate]

/-- C13, the code at the failing input: the namespace `alpha` is written to
an object with an empty status, and the API server accepts the write (nil is
returned). A second call with the same list leaves the object as the first
call left it, and issues a second status write all the same. -/
theorem C13_second_call_writes_again :
    (updateStatusProvisionedNamespaces freshManager emptySet [{ Name := "alpha" }]).2.2 = none ∧
    (updateStatusProvisionedNamespaces freshManager emptySet
      [{ Name := "alpha" }]).1.statusWrites.length = 1 ∧
    (updateStatusProvisionedNamespaces
      (updateStatusProvisionedNamespaces freshManager emptySet [{ Name := "alpha" }]).1
      (updateStatusProvisionedNamespaces freshManager emptySet [{ Name := "alpha" }]).2.1
      [{ Name := "alpha" }]).2.1 =
      (updateStatusProvisionedNamespaces freshManager emptySet [{ Name := "alpha" }]).2.1 ∧
    (updateStatusProvisionedNamespaces
      (updateStatusProvisionedNamespaces freshManager emptySet [{ Name := "alpha" }]).1
      (updateStatusProvisionedNamespaces freshManager emptySet [{ Name := "alpha" }]).2.1
      [{ Name := "alpha" }]).1.statusWrites.length = 2 := by
  refine ⟨by decide, by decide, by decide, by decide⟩

/-! ## C14: cluster resources absent from spec and status -/

/-- When the cluster resources are absent from the spec and from the status,
the first two disjuncts of `clusterResourcesNeedsUpdate` are false and the
third one dereferences the nil pointer of the status. -/
theorem clusterResourcesNeedsUpdate_both_nil (nsTmplSet : NSTemplateSet)
    (hspec : nsTmplSet.Spec.ClusterResources = none)
    (hstatus : nsTmplSet.Status.ClusterResources = none) :
    clusterResourcesNeedsUpdate nsTmplSet = none := by
  unfold clusterResourcesNeedsUpdate
  simp [hspec, hstatus]

/-- C14, the code at the failing input: the object has no cluster resources
in its spec nor in its status, and its feature annotation `f1` is the list of
feature toggles of its status, so that `featureAnnotationNeedsUpdate` returns
false. `clusterResourcesNeedsUpdate` then dereferences a nil pointer instead
of returning false, and so does `updateStatusClusterResourcesRevisions`
instead of returning nil. -/
theorem C14_both_absent_dereferences_nil :
    withoutClusterResources.Spec.ClusterResources = none ∧
    withoutClusterResources.Status.ClusterResources = none ∧
    (featureAnnotationNeedsUpdate withoutClusterResources).1 = false ∧
    clusterResourcesNeedsUpdate withoutClusterResources = none ∧
    (updateStatusClusterResourcesRevisions freshManager withoutClusterResources).isNone = true := by
  refine ⟨rfl, rfl, by decide, by decide, by decide⟩

end nstemplateset
